import Mathlib

/-!
Verification of the Arlington PDF model toolchain (`scripts/arlington.py`).

This file is a shallow embedding of the parts of `arlington.py` that the
claims concern: the sly-based lexer `ArlingtonFnLexer`, the AST grouping
`to_nested_AST` together with the declarative-function shape validators,
the ingestion loop of `Arlington.__init__`, the list-reduction helpers
`__reduce_typelist` / `__reduce_linkslist` / `__find_pdf_type`, the static
validator `__validate_pdf_dom`, and the document matcher
`process_dict` / `process_stream` / `process_array`.

Conventions:
* Python exceptions (KeyError, IndexError, TypeError, AttributeError,
  LexError, and `sys.exit`) are modelled with `Except String`.
* `logging.error` / `logging.critical` calls made by the validator are
  modelled as appending a `Diag` value to an output list.
* Recursions that Python runs on the heap (the regex matcher, the AST
  grouping, the document walk) carry an explicit fuel argument; running
  out of fuel is a distinguished error so that no theorem below can be
  satisfied by fuel exhaustion.
-/

namespace Arlington

/-- The value slot of a `sly.lex.Token`: the matched text by default, or a
parsed `int` / `float` / `bool` for the INTEGER / REAL / PDF_TRUE /
PDF_FALSE token actions (`arlington.py` lines 110-128). Floats are
modelled as exact rationals; the literals that arise here are short
decimal strings, which `float` represents exactly enough that every
comparison the program performs agrees with the rational model. -/
inductive TokValue where
  | vs (s : String)
  | vi (i : Int)
  | vr (q : Rat)
  | vb (b : Bool)
deriving DecidableEq, Repr

/-- A `sly.lex.Token`: a token-type tag and a value. -/
structure Token where
  type : String
  value : TokValue
deriving DecidableEq, Repr

/-- A Python value as stored in an ingested Arlington row: strings, ints,
floats, booleans, `None`, leftover `sly` tokens (function names and
operators, which `__flatten_ast` does not flatten), and nested lists. -/
inductive PVal where
  | str (s : String)
  | int (i : Int)
  | real (q : Rat)
  | bool (b : Bool)
  | pnone
  | tok (t : Token)
  | list (l : List PVal)
deriving Repr

mutual

/-- Structural boolean equality on `PVal`. -/
def PVal.beq : PVal → PVal → Bool
  | .str a, .str b => a == b
  | .int a, .int b => a == b
  | .real a, .real b => a == b
  | .bool a, .bool b => a == b
  | .pnone, .pnone => true
  | .tok a, .tok b => a == b
  | .list a, .list b => PVal.beqList a b
  | _, _ => false

/-- Structural boolean equality on lists of `PVal`. -/
def PVal.beqList : List PVal → List PVal → Bool
  | [], [] => true
  | a :: as, b :: bs => PVal.beq a b && PVal.beqList as bs
  | _, _ => false

end

instance : BEq PVal := ⟨PVal.beq⟩

/-! ### A tiny regular-expression engine

`ArlingtonFnLexer` hands sly a list of Python regexes, tried in class
definition order at each position (earlier patterns win; the source
comments call this ordering a correctness requirement). The engine below
implements Python `re` prefix matching for the constructs those patterns
use: literal characters, character classes, concatenation, leftmost
alternation, greedy `*` / `+` / `?` with backtracking. -/

/-- One entry of a regex character class. -/
inductive RxItem where
  | ch (c : Char)
  | range (lo hi : Char)
deriving DecidableEq, Repr

/-- Regular expressions over characters. -/
inductive Rx where
  | eps
  | ch (c : Char)
  | cls (neg : Bool) (items : List RxItem)
  | cat (a b : Rx)
  | alt (a b : Rx)
  | star (a : Rx)
  | plus (a : Rx)
  | opt (a : Rx)
deriving DecidableEq, Repr

/-- Does a class item cover a character? -/
def RxItem.hit : RxItem → Char → Bool
  | .ch c, d => c = d
  | .range lo hi, d => lo ≤ d && d ≤ hi

/-- Does a (possibly negated) character class cover a character? -/
def Rx.clsHit (neg : Bool) (items : List RxItem) (c : Char) : Bool :=
  let h := items.any (fun it => it.hit c)
  if neg then !h else h

/-- Backtracking matcher in continuation-passing style: greedy
quantifiers, leftmost alternation, first success wins — Python `re`
semantics for the patterns at hand. Quantifier bodies here always consume
input, so requiring progress inside `star` does not change the matched
language. `Except.error` signals fuel exhaustion and poisons the result. -/
def Rx.run : Nat → Rx → List Char → (List Char → Except Unit (Option Nat)) →
    Except Unit (Option Nat)
  | 0, _, _, _ => Except.error ()
  | f + 1, r, s, k =>
    match r with
    | .eps => k s
    | .ch c =>
      match s with
      | [] => Except.ok Option.none
      | d :: t => if c = d then k t else Except.ok Option.none
    | .cls neg items =>
      match s with
      | [] => Except.ok Option.none
      | d :: t => if Rx.clsHit neg items d then k t else Except.ok Option.none
    | .cat a b => Rx.run f a s (fun s2 => Rx.run f b s2 k)
    | .alt a b =>
      match Rx.run f a s k with
      | Except.error e => Except.error e
      | Except.ok (Option.some n) => Except.ok (Option.some n)
      | Except.ok Option.none => Rx.run f b s k
    | .star a =>
      match Rx.run f a s
          (fun s2 =>
            if s2.length < s.length then Rx.run f (.star a) s2 k
            else Except.ok Option.none) with
      | Except.error e => Except.error e
      | Except.ok (Option.some n) => Except.ok (Option.some n)
      | Except.ok Option.none => k s
    | .plus a => Rx.run f a s (fun s2 => Rx.run f (.star a) s2 k)
    | .opt a =>
      match Rx.run f a s k with
      | Except.error e => Except.error e
      | Except.ok (Option.some n) => Except.ok (Option.some n)
      | Except.ok Option.none => k s

/-- Length of the greedy leftmost prefix match of `r` on `s`, `none` when
`r` does not match at the start of `s` (Python `re.match` semantics). -/
def rxMatchLen (r : Rx) (s : List Char) : Except Unit (Option Nat) :=
  Rx.run (4000 + 200 * s.length) r s (fun rest => Except.ok (Option.some (s.length - rest.length)))

/-- Concatenation of a list of regexes. -/
def Rx.seqAll (l : List Rx) : Rx :=
  match l with
  | [] => .eps
  | [r] => r
  | r :: rs => .cat r (Rx.seqAll rs)

/-- The regex matching one literal string. -/
def Rx.lit (s : String) : Rx :=
  Rx.seqAll (s.toList.map Rx.ch)

/-! ### The `ArlingtonFnLexer` token patterns

One definition per pattern of `ArlingtonFnLexer` (`arlington.py` lines
76-108), transcribed regex by regex. -/

/-- The digit class `[0-9]`. -/
def rxDigit : RxItem := .range '0' '9'

/-- The class items of `[a-zA-Z]`. -/
def rxAlphaItems : List RxItem := [.range 'a' 'z', .range 'A' 'Z']

/-- The class items of `[a-zA-Z0-9]`. -/
def rxAlnumItems : List RxItem := rxAlphaItems ++ [rxDigit]

/-- The single-quote character (used by the PDF_STRING pattern). -/
def quoteChar : Char := Char.ofNat 39

/-- `FUNC_NAME = fn\:[A-Z][a-zA-Z0-9]+\(` -/
def rxFuncName : Rx :=
  Rx.seqAll [Rx.lit "fn:", .cls false [.range 'A' 'Z'], .plus (.cls false rxAlnumItems), .ch '(']

/-- `PDF_TRUE = (true)|(TRUE)` -/
def rxPdfTrue : Rx := .alt (Rx.lit "true") (Rx.lit "TRUE")

/-- `PDF_FALSE = (false)|(FALSE)` -/
def rxPdfFalse : Rx := .alt (Rx.lit "false") (Rx.lit "FALSE")

/-- `PDF_STRING = \'[^\']+\'` -/
def rxPdfString : Rx :=
  Rx.seqAll [.ch quoteChar, .plus (.cls true [.ch quoteChar]), .ch quoteChar]

/-- `KEY_VALUE = @(\*|[0-9]+|[0-9]+\*|[a-zA-Z0-9_\.\-]+)` -/
def rxKeyValue : Rx :=
  .cat (.ch '@')
    (.alt (.ch '*')
      (.alt (.plus (.cls false [rxDigit]))
        (.alt (.cat (.plus (.cls false [rxDigit])) (.ch '*'))
          (.plus (.cls false (rxAlnumItems ++ [.ch '_', .ch '.', .ch '-']))))))

/-- The leading-group alternation `[a-zA-Z]|[a-zA-Z][0-9]*|[0-9]*\*|[0-9]*[a-zA-Z]`
of the KEY_PATH pattern. -/
def rxKeyPathHead : Rx :=
  .alt (.cls false rxAlphaItems)
    (.alt (.cat (.cls false rxAlphaItems) (.star (.cls false [rxDigit])))
      (.alt (.cat (.star (.cls false [rxDigit])) (.ch '*'))
        (.cat (.star (.cls false [rxDigit])) (.cls false rxAlphaItems))))

/-- `KEY_PATH = (parent::)?(([a-zA-Z]|[a-zA-Z][0-9]*|[0-9]*\*|[0-9]*[a-zA-Z])[a-zA-Z0-9_\.\-]*::)+` -/
def rxKeyPath : Rx :=
  .cat (.opt (Rx.lit "parent::"))
    (.plus (Rx.seqAll [rxKeyPathHead,
      .star (.cls false (rxAlnumItems ++ [.ch '_', .ch '.', .ch '-'])), Rx.lit "::"]))

/-- The leading-group alternation `[_a-zA-Z]|[_a-zA-Z][0-9]*|[0-9]*\*|[0-9]*[_a-zA-Z]`
of the KEY_NAME pattern. -/
def rxKeyNameHead : Rx :=
  .alt (.cls false (rxAlphaItems ++ [.ch '_']))
    (.alt (.cat (.cls false (rxAlphaItems ++ [.ch '_'])) (.star (.cls false [rxDigit])))
      (.alt (.cat (.star (.cls false [rxDigit])) (.ch '*'))
        (.cat (.star (.cls false [rxDigit])) (.cls false (rxAlphaItems ++ [.ch '_'])))))

/-- `KEY_NAME = ([_a-zA-Z]|[_a-zA-Z][0-9]*|[0-9]*\*|[0-9]*[_a-zA-Z])[a-zA-Z0-9_:\.\-]*` -/
def rxKeyName : Rx :=
  .cat rxKeyNameHead (.star (.cls false (rxAlnumItems ++ [.ch '_', .ch ':', .ch '.', .ch '-'])))

/-- `REAL = \-?\d+\.\d+` -/
def rxReal : Rx :=
  Rx.seqAll [.opt (.ch '-'), .plus (.cls false [rxDigit]), .ch '.', .plus (.cls false [rxDigit])]

/-- `INTEGER = \-?\d+` -/
def rxInteger : Rx := .cat (.opt (.ch '-')) (.plus (.cls false [rxDigit]))

/-- The token rules in class definition order. sly builds its master regex
from the class body in definition order (redefining REAL / INTEGER /
PDF_FALSE / PDF_TRUE as value-converting actions keeps their original
position, since a Python class namespace preserves the first insertion
point of a name); the source comment "Longer rules need to be at the top"
relies on exactly this ordering. -/
def lexerRules : List (String × Rx) :=
  [("FUNC_NAME", rxFuncName), ("PDF_TRUE", rxPdfTrue), ("PDF_FALSE", rxPdfFalse),
   ("PDF_STRING", rxPdfString), ("MOD", Rx.lit "mod"), ("ELLIPSIS", Rx.lit "..."),
   ("KEY_VALUE", rxKeyValue), ("KEY_PATH", rxKeyPath), ("KEY_NAME", rxKeyName),
   ("PDF_PATH", Rx.lit "::"), ("ARRAY_START", .ch '['), ("ARRAY_END", .ch ']'),
   ("EQ", Rx.lit "=="), ("NE", Rx.lit "!="), ("GE", Rx.lit ">="), ("LE", Rx.lit "<="),
   ("LOGICAL_AND", Rx.lit "&&"), ("LOGICAL_OR", Rx.lit "||"), ("GT", .ch '>'), ("LT", .ch '<'),
   ("REAL", rxReal), ("INTEGER", rxInteger), ("PLUS", .ch '+'), ("MINUS", .ch '-'),
   ("TIMES", .ch '*'), ("DIVIDE", .ch '/'), ("LPAREN", .ch '('), ("RPAREN", .ch ')'),
   ("COMMA", .ch ',')]

/-- Value of a decimal digit string. -/
def digitsToNat (l : List Char) : Nat :=
  l.foldl (fun a c => 10 * a + (c.toNat - 48)) 0

/-- Python `int(text)` for the INTEGER pattern's matched text. -/
def parseIntChars (l : List Char) : Int :=
  match l with
  | '-' :: t => - (digitsToNat t : Int)
  | _ => (digitsToNat l : Int)

/-- Python `float(text)` for the REAL pattern's matched text, as an exact
rational. -/
def parseRealChars (l : List Char) : Rat :=
  let neg := l.head? = some '-'
  let l2 := if neg then l.drop 1 else l
  let ip := l2.takeWhile (fun c => c ≠ '.')
  let fp := (l2.dropWhile (fun c => c ≠ '.')).drop 1
  let mag : Rat := (digitsToNat ip : Rat) + (digitsToNat fp : Rat) / ((10 : Rat) ^ fp.length)
  if neg then -mag else mag

/-- Build the token for a rule name and its matched text, applying the
value-converting token actions of `arlington.py` lines 110-128 (all other
tokens carry the matched text as their value). -/
def tokenOf (ty : String) (text : List Char) : Token :=
  if ty = "INTEGER" then ⟨ty, .vi (parseIntChars text)⟩
  else if ty = "REAL" then ⟨ty, .vr (parseRealChars text)⟩
  else if ty = "PDF_TRUE" then ⟨ty, .vb true⟩
  else if ty = "PDF_FALSE" then ⟨ty, .vb false⟩
  else ⟨ty, .vs (String.mk text)⟩

/-- Try the token rules in order at the current position; the first rule
whose pattern matches a prefix wins. -/
def tryRules : List (String × Rx) → List Char → Except Unit (Option (String × Nat))
  | [], _ => Except.ok Option.none
  | (ty, r) :: rest, s =>
    match rxMatchLen r s with
    | Except.error e => Except.error e
    | Except.ok (Option.some n) => Except.ok (Option.some (ty, n))
    | Except.ok Option.none => tryRules rest s

/-- Worker for `tokenize`: skip spaces (`ignore = ' '`), otherwise match
the next token; an unmatched character raises sly's `LexError`. -/
def tokenizeAux : Nat → List Char → Except String (List Token)
  | 0, _ => Except.error "tokenize fuel"
  | f + 1, s =>
    match s with
    | [] => Except.ok []
    | c :: t =>
      if c = ' ' then tokenizeAux f t
      else
        match tryRules lexerRules s with
        | Except.error _ => Except.error "rx fuel"
        | Except.ok Option.none => Except.error "LexError"
        | Except.ok (Option.some (ty, n)) =>
          if n = 0 then Except.error "empty match"
          else
            match tokenizeAux f (s.drop n) with
            | Except.error e => Except.error e
            | Except.ok toks => Except.ok (tokenOf ty (s.take n) :: toks)

/-- `ArlingtonFnLexer.tokenize`. -/
def tokenize (s : String) : Except String (List Token) :=
  tokenizeAux (s.length + 1) s.toList

/-! ### Diagnostics

Each `logging.error` / `logging.critical` call of the ingester, the
declarative-function validation and `__validate_pdf_dom` is modelled as
one `Diag` constructor (payload: the identifying strings of the log
message). -/

/-- One logged finding. -/
inductive Diag where
  | invalidFunction (name obj key : String)
  | unknownFunction (name obj key : String)
  | parseProblem (col obj key func : String)
  | notTwelveColumns (obj key : String)
  | duplicateKeys (obj : String)
  | noKeys (obj : String)
  | badKeyChars (obj key : String)
  | typesNotSorted (obj key : String)
  | sinceVersionPredicateBad (obj key : String)
  | sinceVersionBadVersion (obj key : String)
  | sinceVersionBadValue (obj key : String)
  | deprecatedInBad (obj key : String)
  | requiredFnBad (obj key : String)
  | typeIndirectCountMismatch (obj key : String)
  | streamNotIndirect (obj key : String)
  | inheritableNotBool (obj key : String)
  | typeDefaultCountMismatch (obj key : String)
  | unknownType (t obj key : String)
  | defaultValueWrongType (kind obj key : String)
  | defaultValueQuotes (obj key : String)
  | possibleValuesWrongType (kind obj key : String)
  | possibleValuesQuotes (obj key : String)
  | linkMissingForType (t obj key : String)
  | linkNotListForType (t obj key : String)
  | badLink (lnk obj key : String)
  | linkNotFunction (t obj key : String)
  | typeFnUnknownFunction (obj key : String)
  | typeFnUnknownType (obj key : String)
  | linkExistsForType (t obj key : String)
  | unknownArlingtonType (t : String)
  | unlinkedObject (obj : String)
  | noDom
deriving DecidableEq, Repr

/-! ### Python attribute / subscript semantics on `PVal` -/

/-- `x.type`: only a token has the attribute (`AttributeError` otherwise,
as when a validator probes a nested list). -/
def pytype : PVal → Except String String
  | .tok t => Except.ok t.type
  | _ => Except.error "AttributeError: type"

/-- `x.value`. -/
def pyvalue : PVal → Except String TokValue
  | .tok t => Except.ok t.value
  | _ => Except.error "AttributeError: value"

/-- An `int` comparison operand (`TypeError` when the token value is not
an int — cannot arise after an INTEGER type guard). -/
def tvInt : TokValue → Except String Int
  | .vi i => Except.ok i
  | _ => Except.error "TypeError: int"

/-- `l[i]` on a Python list (`IndexError` out of range). -/
def astGet (l : List PVal) (i : Nat) : Except String PVal :=
  match l.get? i with
  | Option.some v => Except.ok v
  | Option.none => Except.error "IndexError"

/-- `isinstance(x, list)`. -/
def isList : PVal → Bool
  | .list _ => true
  | _ => false

/-- `v[i]` on an arbitrary value (`TypeError` when not subscriptable). -/
def pysub (v : PVal) (i : Nat) : Except String PVal :=
  match v with
  | .list l => astGet l i
  | _ => Except.error "TypeError: not subscriptable"

/-- Python short-circuit `and` (an exception in the first operand
propagates; the second operand is not evaluated when the first is falsy). -/
def pAnd (a b : Except String Bool) : Except String Bool :=
  match a with
  | Except.error e => Except.error e
  | Except.ok true => b
  | Except.ok false => Except.ok false

/-- Python short-circuit `or`. -/
def pOr (a b : Except String Bool) : Except String Bool :=
  match a with
  | Except.error e => Except.error e
  | Except.ok true => Except.ok true
  | Except.ok false => b

/-- Explicit exception-propagating sequencing (the monadic bind of
`Except`, written out so that the validator definitions below stay plain
match trees). -/
def ebind (x : Except String α) (f : α → Except String β) : Except String β :=
  match x with
  | Except.error e => Except.error e
  | Except.ok a => f a

/-- Exception-propagating map. -/
def emap (x : Except String α) (f : α → β) : Except String β :=
  ebind x (fun a => Except.ok (f a))

/-- Contiguous-occurrence test on character lists. -/
def charsInfix (a b : List Char) : Bool :=
  (List.range (b.length + 1)).any (fun i => (b.drop i).take a.length = a)

/-- Python `a <= b` on strings: lexicographic comparison of the code
points (written over the character lists so that it evaluates). -/
def pyStrLe (a b : String) : Bool :=
  decide (a.toList < b.toList) || a == b

/-- Python `s.split(sep)` for a one-character separator (the TSV columns
split on a semicolon). -/
def splitChar (sep : Char) (s : String) : List String :=
  (s.toList.foldr
    (fun c acc =>
      if c = sep then [] :: acc
      else
        match acc with
        | [] => [[c]]
        | g :: gs => (c :: g) :: gs)
    [[]]).map (fun g => String.mk g)

/-- The semicolon column separator. -/
def semic : Char := ';'

/-- Python substring containment `sub in sup` on strings (the source
sometimes writes `in ('KEY_NAME')`, which is a string, not a tuple). -/
def pyInStr (sub sup : String) : Bool :=
  charsInfix sub.toList sup.toList

/-- `Arlington.__comparison_ops`. -/
def comparison_ops : List String := ["EQ", "NE", "GE", "LE", "GT", "LT"]

/-- `Arlington.__known_types`. -/
def known_types : List String :=
  ["array", "bitmask", "boolean", "date", "dictionary", "integer",
   "matrix", "name", "name-tree", "null", "number", "number-tree",
   "rectangle", "stream", "string", "string-ascii", "string-byte", "string-text"]

/-- `Arlington.__links_required`. -/
def links_required : List String := ["array", "dictionary", "name-tree", "number-tree", "stream"]

/-- `Arlington.__pdf_versions`. -/
def pdf_versions : List String := ["1.0", "1.1", "1.2", "1.3", "1.4", "1.5", "1.6", "1.7", "2.0"]

/-- `Arlington.__basePDFtokens`. -/
def basePDFtokens : List String :=
  ["REAL", "INTEGER", "PDF_TRUE", "PDF_FALSE", "KEY_NAME", "PDF_STRING"]

/-! ### The declarative-function shape validators

One definition per `validate_fn_*` method, in source order, each
mirroring the Python conditions with left-to-right short-circuit
evaluation (guards met by an earlier conjunct are encoded as nesting). -/

/-- `validate_fn_void`. -/
def validate_fn_void (ast : List PVal) : Except String Bool :=
  Except.ok (ast.length = 0)

/-- `validate_fn_array_length`. -/
def validate_fn_array_length (ast : List PVal) : Except String Bool := do
  if ast.length = 1 then
    let a0 ← astGet ast 0
    if !isList a0 then
      let t0 ← pytype a0
      if t0 ∈ ["KEY_NAME", "INTEGER"] then
        return true
  if 1 ≤ ast.length then
    let a0 ← astGet ast 0
    if isList a0 then
      return true
  if 1 < ast.length then
    let t0 ← pytype (← astGet ast 0)
    if t0 = "KEY_PATH" then
      let t1 ← pytype (← astGet ast 1)
      if t1 = "KEY_NAME" then
        return true
  return false

/-- `validate_fn_array_sort_ascending` (note: `in ('KEY_NAME')` is a
substring test against a string, not tuple membership). -/
def validate_fn_array_sort_ascending (ast : List PVal) : Except String Bool := do
  if ast.length = 2 then
    let t0 ← pytype (← astGet ast 0)
    if pyInStr t0 "KEY_NAME" then
      let t1 ← pytype (← astGet ast 1)
      if pyInStr t1 "INTEGER" then
        return true
  return false

/-- `validate_fn_extension`. -/
def validate_fn_extension (ast : List PVal) : Except String Bool := do
  if 1 ≤ ast.length then
    let t0 ← pytype (← astGet ast 0)
    if t0 = "KEY_NAME" then
      return true
  return false

/-- Render a float the way Python `str` renders the value of a parsed
short decimal literal: shortest exact decimal expansion with at least one
fractional digit. Only used to compare against the fixed version strings. -/
def ratVersionStr (q : Rat) : String :=
  let sign := if q < 0 then "-" else ""
  let a := |q|
  let k := ((List.range 30).filter (fun k => ((a * ((10 : Rat) ^ (k + 1))).den = 1))).headD 29 + 1
  let scaled := (a * ((10 : Rat) ^ k)).num.toNat
  sign ++ toString (scaled / 10 ^ k) ++ "." ++
    (let fracDigits := toString (10 ^ k + scaled % 10 ^ k)
     fracDigits.drop 1)

/-- `validate_fn_version`. -/
def validate_fn_version (ast : List PVal) : Except String Bool := do
  if 1 ≤ ast.length then
    let a0 ← astGet ast 0
    let t0 ← pytype a0
    if t0 = "REAL" then
      let v ← pyvalue a0
      match v with
      | .vr q => if ratVersionStr q ∈ pdf_versions then return true
      | _ => pure ()
  return false

/-- `validate_fn_bit`. -/
def validate_fn_bit (ast : List PVal) : Except String Bool := do
  if ast.length = 1 then
    let a0 ← astGet ast 0
    let t0 ← pytype a0
    if t0 = "INTEGER" then
      let v ← tvInt (← pyvalue a0)
      if 1 ≤ v then
        if v ≤ 32 then
          return true
  return false

/-- `validate_fn_bits`: two bit positions, each in 1..32, strictly
increasing. -/
def validate_fn_bits (ast : List PVal) : Except String Bool :=
  if ast.length = 2 then
    ebind (astGet ast 0) fun a0 =>
    ebind (pytype a0) fun t0 =>
    if t0 = "INTEGER" then
      ebind (pyvalue a0) fun w0 =>
      ebind (tvInt w0) fun v0 =>
      if 1 ≤ v0 then
        if v0 ≤ 32 then
          ebind (astGet ast 1) fun a1 =>
          ebind (pytype a1) fun t1 =>
          if t1 = "INTEGER" then
            ebind (pyvalue a1) fun w1 =>
            ebind (tvInt w1) fun v1 =>
            if 1 ≤ v1 then
              if v1 ≤ 32 then
                if v0 < v1 then Except.ok true
                else Except.ok false
              else Except.ok false
            else Except.ok false
          else Except.ok false
        else Except.ok false
      else Except.ok false
    else Except.ok false
  else Except.ok false

/-- `validate_fn_contains`. -/
def validate_fn_contains (ast : List PVal) : Except String Bool := do
  if ast.length = 2 then
    let t0 ← pytype (← astGet ast 0)
    if t0 = "KEY_VALUE" then
      return true
  return false

/-- `validate_fn_anything`. -/
def validate_fn_anything (ast : List PVal) : Except String Bool :=
  Except.ok (0 < ast.length)

/-- `validate_fn_get_page_property`. -/
def validate_fn_get_page_property (ast : List PVal) : Except String Bool := do
  if 2 ≤ ast.length then
    let t0 ← pytype (← astGet ast 0)
    if t0 = "KEY_VALUE" then
      let t1 ← pytype (← astGet ast 1)
      if t1 ∈ ["KEY_NAME", "KEY_PATH"] then
        return true
  return false

/-- `validate_fn_colorants`. -/
def validate_fn_colorants (ast : List PVal) : Except String Bool := do
  if ast.length = 2 then
    let t0 ← pytype (← astGet ast 0)
    if t0 = "KEY_PATH" then
      let t1 ← pytype (← astGet ast 1)
      if t1 = "INTEGER" then
        return true
  return false

/-- `validate_fn_ignore`. -/
def validate_fn_ignore (ast : List PVal) : Except String Bool := do
  let c1 ← pOr (Except.ok (ast.length = 0)) (do pure (isList (← astGet ast 0)))
  if c1 then
    return true
  if ast.length = 1 then
    let t0 ← pytype (← astGet ast 0)
    if t0 ∈ ["KEY_NAME", "INTEGER"] then
      return true
  if 3 ≤ ast.length then
    let t0 ← pytype (← astGet ast 0)
    if t0 = "KEY_VALUE" then
      let t1 ← pytype (← astGet ast 1)
      if t1 ∈ comparison_ops then
        return true
  return false

/-- `validate_fn_in_map`. -/
def validate_fn_in_map (ast : List PVal) : Except String Bool := do
  if ast.length = 2 then
    let t0 ← pytype (← astGet ast 0)
    if t0 = "KEY_PATH" then
      let t1 ← pytype (← astGet ast 1)
      if t1 ∈ ["KEY_NAME", "INTEGER"] then
        return true
    return false
  if ast.length = 1 then
    let t0 ← pytype (← astGet ast 0)
    if t0 = "KEY_NAME" then
      return true
  return false

/-- `validate_fn_is_meaningful`. -/
def validate_fn_is_meaningful (ast : List PVal) : Except String Bool := do
  let c1 ← pOr (Except.ok (ast.length = 0)) (do pure (isList (← astGet ast 0)))
  if c1 then
    return true
  if 3 ≤ ast.length then
    let t0 ← pytype (← astGet ast 0)
    if t0 = "KEY_VALUE" then
      let t1 ← pytype (← astGet ast 1)
      if t1 ∈ comparison_ops then
        return true
    return (← elifMeaningful ast)
  return (← elifMeaningful ast)
where
  /-- The final `elif` arm (`len >= 4` with a KEY_PATH form). -/
  elifMeaningful (ast : List PVal) : Except String Bool := do
    if 4 ≤ ast.length then
      let t0 ← pytype (← astGet ast 0)
      if t0 = "KEY_PATH" then
        let t1 ← pytype (← astGet ast 1)
        if t1 = "KEY_VALUE" then
          let t2 ← pytype (← astGet ast 2)
          if t2 ∈ comparison_ops then
            return true
    return false

/-- `validate_fn_is_required`. -/
def validate_fn_is_required (ast : List PVal) : Except String Bool := do
  let c1 ← pOr (Except.ok (ast.length = 0)) (do pure (isList (← astGet ast 0)))
  if c1 then
    return true
  if 3 ≤ ast.length then
    let t0 ← pytype (← astGet ast 0)
    if t0 = "FUNC_NAME" then
      return true
    if t0 = "KEY_VALUE" then
      let t1 ← pytype (← astGet ast 1)
      if t1 ∈ comparison_ops then
        return true
  if 4 ≤ ast.length then
    let t0 ← pytype (← astGet ast 0)
    if t0 = "KEY_PATH" then
      let t1 ← pytype (← astGet ast 1)
      if t1 ∈ ["KEY_NAME", "KEY_VALUE"] then
        let t2 ← pytype (← astGet ast 2)
        if t2 ∈ comparison_ops then
          return true
  return false

/-- `validate_fn_must_be_direct`. -/
def validate_fn_must_be_direct (ast : List PVal) : Except String Bool := do
  let c1 ← pOr (Except.ok (ast.length = 0)) (do pure (isList (← astGet ast 0)))
  if c1 then
    return true
  if ast.length = 1 then
    let t0 ← pytype (← astGet ast 0)
    if t0 = "KEY_VALUE" then
      return true
  if ast.length = 2 then
    let t0 ← pytype (← astGet ast 0)
    if t0 = "KEY_PATH" then
      let t1 ← pytype (← astGet ast 1)
      if t1 ∈ ["KEY_NAME", "INTEGER"] then
        return true
  return false

/-- `validate_fn_must_be_indirect`. -/
def validate_fn_must_be_indirect (ast : List PVal) : Except String Bool := do
  let c1 ← pOr (Except.ok (ast.length = 0)) (do pure (isList (← astGet ast 0)))
  if c1 then
    return true
  if ast.length = 1 then
    let t0 ← pytype (← astGet ast 0)
    if t0 = "KEY_VALUE" then
      return true
  if ast.length = 2 then
    let t0 ← pytype (← astGet ast 0)
    if t0 = "FUNC_NAME" then
      let t1 ← pytype (← astGet ast 1)
      if t1 ∈ ["REAL", "INTEGER"] then
        return true
  return false

/-- `validate_fn_rect`. -/
def validate_fn_rect (ast : List PVal) : Except String Bool := do
  if ast.length = 1 then
    let t0 ← pytype (← astGet ast 0)
    if t0 ∈ ["KEY_NAME", "INTEGER"] then
      return true
  return false

/-- `validate_fn_required_value` (note: `ast[0]` is read before any
length check, so an empty argument list raises `IndexError`). -/
def validate_fn_required_value (ast : List PVal) : Except String Bool := do
  let a0 ← astGet ast 0
  if !isList a0 then
    if ast.length = 4 then
      let t0 ← pytype a0
      if t0 ∈ ["KEY_VALUE", "FUNC_NAME"] then
        return true
  else
    if ast.length = 2 then
      let a00 ← pysub a0 0
      if isList a00 then
        let t ← pytype (← pysub a00 0)
        if t = "FUNC_NAME" then
          return true
    else
      if 3 ≤ ast.length then
        let c ← pOr
          (pAnd (pAnd (do pure ((← pytype (← pysub a0 0)) = "KEY_VALUE"))
                      (do pure ((← pytype (← pysub a0 1)) ∈ comparison_ops)))
            (pAnd (do pure ((← pytype (← astGet ast 1)) ∈ ["LOGICAL_OR", "LOGICAL_AND"]))
                  (pAnd (do pure ((← pytype (← pysub (← astGet ast 2) 0)) = "KEY_VALUE"))
                        (do pure ((← pytype (← pysub (← astGet ast 2) 1)) ∈ comparison_ops)))))
          (do pure ((← pytype (← pysub a0 0)) = "FUNC_NAME"))
        if c then
          return true
  return false

/-- `validate_fn_is_present`. -/
def validate_fn_is_present (ast : List PVal) : Except String Bool := do
  if 1 ≤ ast.length then
    let a0 ← astGet ast 0
    let c ← pOr (Except.ok (isList a0))
      (do pure ((← pytype a0) ∈ ["KEY_NAME", "INTEGER", "KEY_PATH", "KEY_VALUE"]))
    if c then
      return true
  return false

/-- `validate_fn_is_field_name` (again `in ('KEY_VALUE')` is a substring
test). -/
def validate_fn_is_field_name (ast : List PVal) : Except String Bool := do
  if 1 ≤ ast.length then
    let a0 ← astGet ast 0
    let c ← pOr (Except.ok (isList a0)) (do pure (pyInStr (← pytype a0) "KEY_VALUE"))
    if c then
      return true
  return false

/-- `validate_fn_stream_length` (the source returns `True`
unconditionally; marked TODO there). -/
def validate_fn_stream_length (_ast : List PVal) : Except String Bool :=
  Except.ok true

/-- `validate_fn_string_length`. -/
def validate_fn_string_length (ast : List PVal) : Except String Bool := do
  if ast.length = 1 then
    let t0 ← pytype (← astGet ast 0)
    if t0 ∈ ["KEY_NAME", "INTEGER"] then
      return true
    return false
  if 1 < ast.length then
    let t0 ← pytype (← astGet ast 0)
    if t0 ∈ ["KEY_NAME", "INTEGER"] then
      return true
  return false

/-- `validate_fn_default_value`. -/
def validate_fn_default_value (ast : List PVal) : Except String Bool := do
  if 4 ≤ ast.length then
    let tl ← pytype (← astGet ast (ast.length - 1))
    if tl ∈ ["KEY_NAME", "PDF_STRING", "INTEGER"] then
      return true
  return false

/-- `Arlington.__validate_fns`: the dispatch table from recognized
function-name lexemes to their shape checkers, in source order. -/
def validate_fns : List (String × (List PVal → Except String Bool)) :=
  [("fn:AlwaysUnencrypted(", validate_fn_void),
   ("fn:ArrayLength(", validate_fn_array_length),
   ("fn:ArraySortAscending(", validate_fn_array_sort_ascending),
   ("fn:BeforeVersion(", validate_fn_version),
   ("fn:BitClear(", validate_fn_bit),
   ("fn:BitSet(", validate_fn_bit),
   ("fn:BitsClear(", validate_fn_bits),
   ("fn:BitsSet(", validate_fn_bits),
   ("fn:Contains(", validate_fn_contains),
   ("fn:Deprecated(", validate_fn_version),
   ("fn:Eval(", validate_fn_anything),
   ("fn:FileSize(", validate_fn_void),
   ("fn:FontHasLatinChars(", validate_fn_void),
   ("fn:PageProperty(", validate_fn_get_page_property),
   ("fn:Ignore(", validate_fn_ignore),
   ("fn:HasProcessColorants(", validate_fn_colorants),
   ("fn:HasSpotColorants(", validate_fn_colorants),
   ("fn:ImageIsStructContentItem(", validate_fn_void),
   ("fn:ImplementationDependent(", validate_fn_void),
   ("fn:InKeyMap(", validate_fn_in_map),
   ("fn:InNameTree(", validate_fn_in_map),
   ("fn:IsAssociatedFile(", validate_fn_void),
   ("fn:IsEncryptedWrapper(", validate_fn_void),
   ("fn:IsFieldName(", validate_fn_is_field_name),
   ("fn:IsHexString(", validate_fn_void),
   ("fn:IsLastInNumberFormatArray(", validate_fn_anything),
   ("fn:IsMeaningful(", validate_fn_is_meaningful),
   ("fn:IsPDFTagged(", validate_fn_void),
   ("fn:IsPDFVersion(", validate_fn_version),
   ("fn:IsPresent(", validate_fn_is_present),
   ("fn:IsRequired(", validate_fn_is_required),
   ("fn:KeyNameIsColorant(", validate_fn_void),
   ("fn:MustBeDirect(", validate_fn_must_be_direct),
   ("fn:MustBeIndirect(", validate_fn_must_be_indirect),
   ("fn:NoCycle(", validate_fn_void),
   ("fn:NotStandard14Font(", validate_fn_void),
   ("fn:NumberOfPages(", validate_fn_void),
   ("fn:PageContainsStructContentItems(", validate_fn_void),
   ("fn:RectHeight(", validate_fn_rect),
   ("fn:RectWidth(", validate_fn_rect),
   ("fn:RequiredValue(", validate_fn_required_value),
   ("fn:Extension(", validate_fn_extension),
   ("fn:SinceVersion(", validate_fn_version),
   ("fn:StreamLength(", validate_fn_stream_length),
   ("fn:StringLength(", validate_fn_string_length),
   ("fn:DefaultValue(", validate_fn_default_value),
   ("fn:Not(", validate_fn_anything)]

/-- The lexeme of a FUNC_NAME token. -/
def funcNameText (t : Token) : String :=
  match t.value with
  | .vs s => s
  | _ => ""

/-- Run the shape validation that `to_nested_AST` performs on a completed
function call when `self.__validating` is set (lines 634-640): look the
lexeme up in the table; an unknown name or a failed checker is a logged
error (a `ShapeError` finding). Checker exceptions propagate. -/
def validateCall (t : Token) (args : List PVal) (obj key : String) :
    Except String (List Diag) := do
  match (validate_fns.filter (fun p => p.1 = funcNameText t)).head? with
  | Option.some p =>
    let ok ← p.2 args
    if ok then
      return []
    else
      return [Diag.invalidFunction (funcNameText t) obj key]
  | Option.none => return [Diag.unknownFunction (funcNameText t) obj key]

/-- `Arlington.to_nested_AST` (lines 620-657), with the `while` loop
rendered as recursion: starting at token index `i` the function consumes
tokens until a closing RPAREN / ARRAY_END or the end of the stack, and
returns the index after the consumed region together with the nodes built
and the shape-validation findings in logging order. `validating` is
`self.__validating`. -/
def to_nested_AST (validating : Bool) (obj key : String) :
    Nat → List Token → Nat → Except String (Nat × List PVal × List Diag)
  | 0, _, _ => Except.error "to_nested_AST fuel"
  | f + 1, stk, i =>
    match stk.get? i with
    | Option.none => Except.ok (i, [], [])
    | Option.some t =>
      if t.type = "FUNC_NAME" then do
        let (j, k, d1) ← to_nested_AST validating obj key f stk (i + 1)
        let d2 ← (if validating then validateCall t k obj key else pure [])
        let (n, rest, d3) ← to_nested_AST validating obj key f stk j
        return (n, PVal.list [PVal.tok t, PVal.list k] :: rest, d1 ++ d2 ++ d3)
      else if t.type = "LPAREN" || t.type = "ARRAY_START" then do
        let (j, k, d1) ← to_nested_AST validating obj key f stk (i + 1)
        let (n, rest, d2) ← to_nested_AST validating obj key f stk j
        return (n, PVal.list k :: rest, d1 ++ d2)
      else if t.type = "RPAREN" || t.type = "ARRAY_END" then
        Except.ok (i + 1, [], [])
      else if t.type = "COMMA" then
        to_nested_AST validating obj key f stk (i + 1)
      else do
        let (n, rest, d) ← to_nested_AST validating obj key f stk (i + 1)
        return (n, PVal.tok t :: rest, d)

mutual

/-- `Arlington.__flatten_ast` on one node: replace base-PDF tokens by
their raw values. -/
def flatten_one : PVal → PVal
  | .tok t =>
    if t.type ∈ basePDFtokens then
      match t.value with
      | .vs s => .str s
      | .vi i => .int i
      | .vr q => .real q
      | .vb b => .bool b
    else
      .tok t
  | .list l => .list (flatten_list l)
  | v => v

/-- `Arlington.__flatten_ast` on a node list. -/
def flatten_list : List PVal → List PVal
  | [] => []
  | x :: xs => flatten_one x :: flatten_list xs

end

/-- `Arlington._parse_functions`: tokenize, group, flatten, unwrap a
single non-function non-key-value token, and log when there was nothing
to parse. Returns the resulting Python value and the findings. -/
def parse_functions (validating : Bool) (func col obj key : String) :
    Except String (PVal × List Diag) := do
  let stk ← tokenize func
  let num_toks := stk.length
  let (_, ast0, d) ← to_nested_AST validating obj key (4 * (stk.length + 1)) stk 0
  let ast1 := flatten_list ast0
  let astv : PVal ←
    (if num_toks = 1 then
      match stk.get? 0 with
      | Option.some t0 =>
        if t0.type ∉ (["FUNC_NAME", "KEY_VALUE"] : List String) then
          if 0 < ast1.length then
            astGet ast1 0
          else
            pure (PVal.list ast1)
        else
          pure (PVal.list ast1)
      | Option.none => pure (PVal.list ast1)
    else
      pure (PVal.list ast1))
  let d2 := if num_toks = 0 then d ++ [Diag.parseProblem col obj key func] else d
  return (astv, d2)

/-! ### Ingestion (`Arlington.__init__`, lines 720-859)

A raw TSV row arrives as 12 named string columns (the tabular reader is
out of scope); `ingest_row` performs the per-column normalization of the
constructor's row loop, `ingest_file` builds one object's key map, and
`arlington_init_aux` is the file loop inside the constructor's single
`try` block: a raised ingestion error abandons the loop (the `except`
clause logs it), keeping only the objects completed before it. -/

/-- One raw schema row: the 12 columns. -/
structure RawRow where
  Key : String
  «Type» : String
  SinceVersion : String
  DeprecatedIn : String
  Required : String
  IndirectReference : String
  Inheritable : String
  DefaultValue : String
  PossibleValues : String
  SpecialCase : String
  Link : String
  Note : String
deriving Repr

/-- An ingested row (the Python dict after normalization, minus the
removed `Key`). Fields that the code always wraps into lists are lists;
`Option.none` models Python `None`; `PVal.pnone` models `None` inside a
per-alternative list. -/
structure Row where
  «Type» : List PVal
  SinceVersion : PVal
  DeprecatedIn : Option String
  Required : List PVal
  IndirectReference : List PVal
  Inheritable : PVal
  DefaultValue : Option (List PVal)
  PossibleValues : Option (List PVal)
  SpecialCase : Option (List PVal)
  Link : Option (List PVal)
  Note : Option String
deriving Repr

/-- One object's key map (`tsvobj`: a Python dict in insertion order). -/
abbrev TsvObj := List (String × Row)

/-- The whole model (`self.__pdfdom`). -/
abbrev Dom := List (String × TsvObj)

/-- Python `d[k] = v` on an insertion-ordered dict: updating an existing
key keeps its position. -/
def dictSet (d : List (String × α)) (k : String) (v : α) : List (String × α) :=
  if d.any (fun p => p.1 = k) then
    d.map (fun p => if p.1 = k then (k, v) else p)
  else
    d ++ [(k, v)]

/-- Python `k in d` for a dict modelled as an assoc list. -/
def dictHas (d : List (String × α)) (k : String) : Bool :=
  d.any (fun p => p.1 = k)

/-- Python `d[k]` (KeyError when absent). -/
def dictGet (d : List (String × α)) (k : String) : Except String α :=
  match (d.filter (fun p => p.1 = k)).head? with
  | Option.some p => Except.ok p.2
  | Option.none => Except.error ("KeyError: " ++ k)

/-- Python `c in s` for a character. -/
def hasChar (s : String) (c : Char) : Bool :=
  s.toList.contains c

/-- `Arlington.__strip_square_brackets` on one element of a semicolon
split: `[]` becomes `None`, one layer of literal brackets is removed,
and indexing an empty string raises. -/
def strip_one (i : String) : Except String (Option String) :=
  if i = "[]" then
    Except.ok Option.none
  else if i.length = 0 then
    Except.error "IndexError: empty column element"
  else if i.front = '[' && i.back = ']' then
    Except.ok (Option.some ((i.drop 1).dropRight 1))
  else
    Except.ok (Option.some i)

/-- `Arlington.__strip_square_brackets` on a semicolon-split list. -/
def strip_square_brackets_list (li : List String) : Except String (List (Option String)) :=
  li.mapM strip_one

/-- `Arlington.__convert_booleans` on a single string. -/
def convert_booleans_str (s : String) : PVal :=
  if s = "FALSE" || s = "[FALSE]" then .bool false
  else if s = "TRUE" || s = "[TRUE]" then .bool true
  else .str s

/-- The loop of `__init__` lines 770-772: append `IndirectReference[0]`
once per missing alternative (the range bound is computed before the
first append, Python semantics). -/
def appendHead : List PVal → Nat → List PVal
  | l, 0 => l
  | l, n + 1 => appendHead (l ++ [l.headD PVal.pnone]) n

/-- Lines 768-772: broadcast a single `IndirectReference` value across
all Type alternatives so direct indexing is always possible. -/
def expand_single_indirect (tyLen : Nat) (ir : List PVal) : List PVal :=
  if tyLen > ir.length && ir.length = 1 then
    appendHead ir (tyLen - ir.length)
  else
    ir

/-- Python `str(v)` for the values the name-conversion hack can see. -/
def pyStr : PVal → String
  | .int i => toString i
  | .real q => ratVersionStr q
  | .bool b => if b then "True" else "False"
  | .str s => s
  | _ => ""

/-- `isinstance(v, (int, float))` (a Python `bool` is an `int`). -/
def pyIsIntFloat : PVal → Bool
  | .int _ => true
  | .real _ => true
  | .bool _ => true
  | _ => false

/-- The split-parse pattern shared by `DefaultValue` / `PossibleValues` /
`SpecialCase`: strip brackets over the semicolon split, then parse each
non-`None` element in place. -/
def splitAndParse (validating : Bool) (raw col obj key : String) :
    Except String (List PVal × List Diag) := do
  let stripped ← strip_square_brackets_list (splitChar semic raw)
  let mut out : List PVal := []
  let mut diags : List Diag := []
  for v in stripped do
    match v with
    | Option.none => out := out ++ [PVal.pnone]
    | Option.some s =>
      let (pv, d) ← parse_functions validating s col obj key
      out := out ++ [pv]
      diags := diags ++ d
  return (out, diags)

/-- The constructor's row loop body (lines 731-844) for one raw row:
normalize every column, returning the key name, the ingested row and the
findings logged along the way. An empty key name raises `TypeError`
(line 737); the 12-column count check cannot fire here because `RawRow`
carries exactly the 12 columns. -/
def ingest_row (validating : Bool) (obj_name : String) (raw : RawRow) :
    Except String (String × Row × List Diag) := do
  let keyname := raw.Key
  if keyname = "" then
    throw "TypeError: Key name field cannot be empty!"
  let mut diags : List Diag := []
  -- Type: split on ';'; parse any element containing "fn:"
  let ty_parts := if hasChar raw.«Type» ';' then splitChar semic raw.«Type» else [raw.«Type»]
  let mut tyList : List PVal := []
  for v in ty_parts do
    if pyInStr "fn:" v then
      let (pv, d) ← parse_functions validating v "Type" obj_name keyname
      tyList := tyList ++ [pv]
      diags := diags ++ d
    else
      tyList := tyList ++ [.str v]
  -- Required: parse, wrap into a list
  let (reqv, dreq) ← parse_functions validating raw.Required "Required" obj_name keyname
  diags := diags ++ dreq
  let required := match reqv with | .list l => l | v => [v]
  -- SinceVersion: parsed (may be a predicate)
  let (sv, dsv) ← parse_functions validating raw.SinceVersion "SinceVersion" obj_name keyname
  diags := diags ++ dsv
  -- DeprecatedIn: optional
  let deprecated := if raw.DeprecatedIn = "" then Option.none else Option.some raw.DeprecatedIn
  -- IndirectReference: split/strip/parse or single parse; wrap; broadcast
  let mut ir : List PVal := []
  if hasChar raw.IndirectReference ';' then
    let stripped ← strip_square_brackets_list (splitChar semic raw.IndirectReference)
    for v in stripped do
      match v with
      | Option.none => ir := ir ++ [PVal.pnone]
      | Option.some s =>
        let (pv, d) ← parse_functions validating s "IndirectReference" obj_name keyname
        ir := ir ++ [pv]
        diags := diags ++ d
  else
    let (pv, d) ← parse_functions validating raw.IndirectReference "IndirectReference" obj_name keyname
    diags := diags ++ d
    ir := match pv with | .list l => l | v => [v]
  ir := expand_single_indirect tyList.length ir
  -- Inheritable: FALSE/TRUE only
  let inheritable := convert_booleans_str raw.Inheritable
  -- DefaultValue
  let mut dv : Option (List PVal) := Option.none
  if raw.DefaultValue = "" then
    dv := Option.none
  else if hasChar raw.DefaultValue ';' then
    let (l, d) ← splitAndParse validating raw.DefaultValue "DefaultValue" obj_name keyname
    dv := Option.some l
    diags := diags ++ d
  else
    let (pv, d) ← parse_functions validating raw.DefaultValue "DefaultValue" obj_name keyname
    diags := diags ++ d
    dv := Option.some (match pv with | .list l => l | v => [v])
  -- PossibleValues
  let mut pvs : Option (List PVal) := Option.none
  if raw.PossibleValues = "" then
    pvs := Option.none
  else if hasChar raw.PossibleValues ';' then
    let (l, d) ← splitAndParse validating raw.PossibleValues "PossibleValues" obj_name keyname
    pvs := Option.some l
    diags := diags ++ d
  else
    let (pv, d) ← parse_functions validating raw.PossibleValues "PossibleValues" obj_name keyname
    diags := diags ++ d
    pvs := Option.some (match pv with | .list l => l | v => [v])
  -- The name-disambiguation hack (lines 804-812)
  if (tyList.headD PVal.pnone) == PVal.str "name" then
    match dv with
    | Option.some dl =>
      let d0 ← astGet dl 0
      if pyIsIntFloat d0 then
        dv := Option.some (dl.set 0 (PVal.str (pyStr d0)))
    | Option.none => pure ()
    match pvs with
    | Option.some pl =>
      let p0 ← astGet pl 0
      match p0 with
      | PVal.pnone => pure ()
      | PVal.list inner =>
        pvs := Option.some (pl.set 0 (PVal.list
          (inner.map (fun v => if pyIsIntFloat v then PVal.str (pyStr v) else v))))
      | PVal.str _ => pure ()
      | _ => throw "TypeError: not iterable"
    | Option.none => pure ()
  -- SpecialCase
  let mut sc : Option (List PVal) := Option.none
  if raw.SpecialCase = "" then
    sc := Option.none
  else if hasChar raw.SpecialCase ';' then
    let (l, d) ← splitAndParse validating raw.SpecialCase "SpecialCase" obj_name keyname
    sc := Option.some l
    diags := diags ++ d
  else
    let (pv, d) ← parse_functions validating raw.SpecialCase "SpecialCase" obj_name keyname
    diags := diags ++ d
    sc := Option.some (match pv with | .list l => l | v => [v])
  -- Link: split then per-element []→None / parse, or single parse; wrap
  let mut lk : Option (List PVal) := Option.none
  if raw.Link = "" then
    lk := Option.none
  else if hasChar raw.Link ';' then
    let mut ll : List PVal := []
    for v in splitChar semic raw.Link do
      if v = "[]" then
        ll := ll ++ [PVal.pnone]
      else
        let (pv, d) ← parse_functions validating v "Link" obj_name keyname
        ll := ll ++ [pv]
        diags := diags ++ d
    lk := Option.some ll
  else
    let (pv, d) ← parse_functions validating raw.Link "Link" obj_name keyname
    diags := diags ++ d
    lk := Option.some (match pv with | .list l => l | v => [v])
  let note := if raw.Note = "" then Option.none else Option.some raw.Note
  return (keyname,
    { «Type» := tyList, SinceVersion := sv, DeprecatedIn := deprecated,
      Required := required, IndirectReference := ir, Inheritable := inheritable,
      DefaultValue := dv, PossibleValues := pvs, SpecialCase := sc,
      Link := lk, Note := note }, diags)

/-- One TSV file's row loop: build the object's key map in row order
(`tsvobj[keyname] = row`); an exception from a row ends the file. -/
def ingest_file_loop (validating : Bool) (obj_name : String) :
    List RawRow → TsvObj → List Diag → Except String (TsvObj × List Diag)
  | [], tsvobj, diags => Except.ok (tsvobj, diags)
  | raw :: rest, tsvobj, diags =>
    ebind (ingest_row validating obj_name raw) fun krd =>
    ingest_file_loop validating obj_name rest (dictSet tsvobj krd.1 krd.2.1)
      (diags ++ krd.2.2)

/-- One TSV file, starting from an empty key map. -/
def ingest_file (validating : Bool) (obj_name : String) (rows : List RawRow) :
    Except String (TsvObj × List Diag) :=
  ingest_file_loop validating obj_name rows [] []

/-- One TSV file: its object name and raw rows. -/
structure TsvFile where
  name : String
  rows : List RawRow
deriving Repr

/-- The constructor's file loop inside its `try`: process files in order;
a raised error ends the loop (it is caught and logged by the constructor's
`except` clause), leaving the model with only the files completed before
the error. -/
def arlington_init_aux (validating : Bool) :
    List TsvFile → Dom → List Diag → Dom × List Diag × Option String
  | [], dom, ds => (dom, ds, Option.none)
  | f :: fs, dom, ds =>
    match ingest_file validating f.name f.rows with
    | Except.error e => (dom, ds, Option.some e)
    | Except.ok (obj, d2) => arlington_init_aux validating fs (dictSet dom f.name obj) (ds ++ d2)

/-! ### The list-reduction helpers and `__find_pdf_type` -/

mutual

/-- The loop body of `Arlington.__reduce_linkslist` for one element:
append a string, recurse into a nested list, skip anything else. -/
def reduce_linkslist_one : PVal → List String → List String
  | .str s, acc => acc ++ [s]
  | .list l, acc => reduce_linkslist_list l acc
  | _, acc => acc

/-- `Arlington.__reduce_linkslist` restricted to an actual list argument,
accumulating into `reduced_list`. -/
def reduce_linkslist_list : List PVal → List String → List String
  | [], acc => acc
  | lk :: rest, acc => reduce_linkslist_list rest (reduce_linkslist_one lk acc)

end

/-- `Arlington.__reduce_linkslist` on an arbitrary first argument:
`None` short-circuits to `None`; iterating a string yields its characters
(each a one-character string, hence appended); iterating a non-iterable
raises. -/
def reduce_linkslist (v : PVal) (acc : List String) : Except String (Option (List String)) :=
  match v with
  | .pnone => Except.ok Option.none
  | .list l => Except.ok (Option.some (reduce_linkslist_list l acc))
  | .str s => Except.ok (Option.some (s.toList.foldl (fun a c => a ++ [c.toString]) acc))
  | _ => Except.error "TypeError: not iterable"

mutual

/-- The loop body of `Arlington.__reduce_typelist` for one element: keep
a string that is a known type name, recurse into a nested list
(declarative function), skip the rest. -/
def reduce_typelist_one : PVal → List String → List String
  | .str s, acc => if s ∈ known_types then acc ++ [s] else acc
  | .list l, acc => reduce_typelist l acc
  | _, acc => acc

/-- `Arlington.__reduce_typelist`, accumulating into `reduced_list`. -/
def reduce_typelist : List PVal → List String → List String
  | [], acc => acc
  | t :: rest, acc => reduce_typelist rest (reduce_typelist_one t acc)

end

/-- What one iteration of the `__find_pdf_type` loop decides for the
current entry: report it as the match, return `-1` for the whole search,
or move on — together with the `logging.critical` findings produced. -/
inductive FindStep where
  | hit (ds : List Diag)
  | stop (ds : List Diag)
  | next (ds : List Diag)
deriving Repr

mutual

/-- The loop body of `Arlington.__find_pdf_type` for one type entry.
Quirks preserved: when `types` is a list and the current entry is a
non-matching string the loop returns `-1` immediately (the `return -1`
inside the inner `for`), and matching is Python substring containment,
not equality. -/
def find_pdf_type_one (types : Sum String (List String)) : PVal → FindStep
  | .str s =>
    let ds := if s ∉ known_types then [Diag.unknownArlingtonType s] else []
    (match types with
     | .inr tl =>
       if tl.any (fun ea => pyInStr ea s) then .hit ds else .stop ds
     | .inl t1 =>
       if pyInStr t1 s then .hit ds else .next ds)
  | .list l =>
    let inner := find_pdf_type types l 0
    if inner.1 ≠ -1 then .hit inner.2 else .next inner.2
  | _ => .next []

/-- `Arlington.__find_pdf_type` with current index `i`: first index of a
type entry containing (as a substring) one of the wanted type names, `-1`
otherwise, plus the `logging.critical` findings for unknown names. -/
def find_pdf_type (types : Sum String (List String)) : List PVal → Nat → Int × List Diag
  | [], _ => (-1, [])
  | t :: rest, i =>
    match find_pdf_type_one types t with
    | .hit ds => ((i : Int), ds)
    | .stop ds => (-1, ds)
    | .next ds =>
      let p := find_pdf_type types rest (i + 1)
      (p.1, ds ++ p.2)

end

/-! ### The static validator `__validate_pdf_dom` (lines 861-1076)

Split into one definition per check block, in source order; `check_row`
is the per-key body, `check_unlinked` the per-object incoming-link count,
`validate_pdf_dom` the whole pass. -/

/-- The key-name pattern `^[a-zA-Z0-9_:\-\.]*\*?$` of line 886, as a full
match from the start (the trailing-newline allowance of `$` cannot arise
for key names). -/
def key_name_ok (k : String) : Bool :=
  let r := Rx.cat (.star (.cls false (rxAlnumItems ++ [.ch '_', .ch ':', .ch '-', .ch '.'])))
    (.opt (.ch '*'))
  match Rx.run (4000 + 200 * k.length) r k.toList
      (fun rest => if rest.isEmpty then Except.ok (Option.some 0) else Except.ok Option.none) with
  | Except.ok (Option.some _) => true
  | _ => false

/-- Lines 886-888: key charset check. -/
def check_key_chars (obj key : String) : List Diag :=
  if key_name_ok key then [] else [Diag.badKeyChars obj key]

/-- Python's `all(rt[i] <= rt[i+1] for i in range(len(rt)-1))` of
line 892. -/
def is_sorted_str (l : List String) : Bool :=
  (List.range (l.length - 1)).all (fun i => pyStrLe (l.getD i "") (l.getD (i + 1) ""))

/-- Lines 890-894: alphabetical sortedness of the reduced type list. -/
def check_types_sorted (obj key : String) (row : Row) : List Diag :=
  let reduced := reduce_typelist row.«Type» []
  if is_sorted_str reduced then [] else [Diag.typesNotSorted obj key]

/-- The float literals the SinceVersion chain of line 902 compares
against. -/
def svVersions : List Rat :=
  [1, 11 / 10, 6 / 5, 13 / 10, 7 / 5, 3 / 2, 8 / 5, 17 / 10, 2]

/-- Lines 896-905: SinceVersion well-formedness. In the predicate case
the source's parenthesized condition `(v[0].value != A) or (v[0].value != B)`
is a tautology, so the check reduces to the token-type test. -/
def check_since_version_loop (obj key : String) : List PVal → Except String (List Diag)
  | [] => Except.ok []
  | v :: rest =>
    ebind (pysub v 0) fun v0 =>
    ebind (pytype v0) fun t =>
    ebind (pAnd (Except.ok (t ≠ "FUNC_NAME"))
      (pOr (emap (pyvalue v0) (fun w => w ≠ TokValue.vs "fn:IsExtension("))
           (emap (pyvalue v0) (fun w => w ≠ TokValue.vs "fn:SinceVersion(")))) fun bad =>
    ebind (check_since_version_loop obj key rest) fun ds =>
    Except.ok (if bad then Diag.sinceVersionPredicateBad obj key :: ds else ds)

/-- Lines 896-905 continued: dispatch on the SinceVersion value. -/
def check_since_version (obj key : String) (row : Row) : Except String (List Diag) :=
  match row.SinceVersion with
  | .list l => check_since_version_loop obj key l
  | .real q =>
    if q ∉ svVersions then Except.ok [Diag.sinceVersionBadVersion obj key]
    else Except.ok []
  | _ => Except.ok [Diag.sinceVersionBadValue obj key]

/-- Lines 907-908: DeprecatedIn must be a known version when present. -/
def check_deprecated (obj key : String) (row : Row) : List Diag :=
  match row.DeprecatedIn with
  | Option.some v => if v ∉ pdf_versions then [Diag.deprecatedInBad obj key] else []
  | Option.none => []

/-- Lines 910-913: predicate-form Required entries must be
`fn:IsRequired(` function calls. -/
def check_required_loop (obj key : String) : List PVal → Except String (List Diag)
  | [] => Except.ok []
  | v :: rest =>
    match v with
    | .list vl =>
      ebind (astGet vl 0) fun v0 =>
      ebind (pytype v0) fun t =>
      ebind (pAnd (Except.ok (t ≠ "FUNC_NAME"))
        (emap (pyvalue v0) (fun w => w ≠ TokValue.vs "fn:IsRequired("))) fun bad =>
      ebind (check_required_loop obj key rest) fun ds =>
      Except.ok (if bad then Diag.requiredFnBad obj key :: ds else ds)
    | _ => check_required_loop obj key rest

/-- Lines 910-913 as a function of the whole row. -/
def check_required (obj key : String) (row : Row) : Except String (List Diag) :=
  check_required_loop obj key row.Required

/-- Lines 915-918: Type vs IndirectReference alternative counts. -/
def check_ir_count (obj key : String) (row : Row) : List Diag :=
  if 1 < row.IndirectReference.length then
    if row.«Type».length ≠ row.IndirectReference.length then
      [Diag.typeIndirectCountMismatch obj key]
    else []
  else []

/-- Lines 920-923: a stream alternative requires its IndirectReference
entry to be literally `True`. -/
def check_stream_ir (obj key : String) (row : Row) : Except String (List Diag) :=
  let p := find_pdf_type (Sum.inl "stream") row.«Type» 0
  if p.1 ≠ -1 then
    ebind (astGet row.IndirectReference p.1.toNat) fun v =>
    if !(v == PVal.bool true) then Except.ok (p.2 ++ [Diag.streamNotIndirect obj key])
    else Except.ok p.2
  else Except.ok p.2

/-- Lines 925-926: Inheritable must be a Python bool. -/
def check_inheritable (obj key : String) (row : Row) : List Diag :=
  match row.Inheritable with
  | .bool _ => []
  | _ => [Diag.inheritableNotBool obj key]

/-- Lines 928-930: Type vs DefaultValue alternative counts. -/
def check_dv_count (obj key : String) (row : Row) : List Diag :=
  match row.DefaultValue with
  | Option.some dl =>
    if row.«Type».length ≠ dl.length then [Diag.typeDefaultCountMismatch obj key] else []
  | Option.none => []

/-- `isinstance(v, (str, list))`. -/
def pyIsStrList : PVal → Bool
  | .str _ => true
  | .list _ => true
  | _ => false

/-- `isinstance(v, (bool, list))`. -/
def pyIsBoolList : PVal → Bool
  | .bool _ => true
  | .list _ => true
  | _ => false

/-- `isinstance(v, (int, float, list))` (bool counts as int). -/
def pyIsNumList : PVal → Bool
  | .int _ => true
  | .real _ => true
  | .bool _ => true
  | .list _ => true
  | _ => false

/-- `isinstance(v, (int, list))` (bool counts as int). -/
def pyIsIntList : PVal → Bool
  | .int _ => true
  | .bool _ => true
  | .list _ => true
  | _ => false

/-- Python `x[0]` on a string or list value. -/
def pyFirst : PVal → Except String PVal
  | .str s =>
    match s.toList.head? with
    | Option.some c => Except.ok (.str c.toString)
    | Option.none => Except.error "IndexError"
  | .list l => astGet l 0
  | _ => Except.error "TypeError: not subscriptable"

/-- Python `x[-1]` on a string or list value. -/
def pyLast : PVal → Except String PVal
  | .str s =>
    match s.toList.getLast? with
    | Option.some c => Except.ok (.str c.toString)
    | Option.none => Except.error "IndexError"
  | .list l =>
    match l.getLast? with
    | Option.some v => Except.ok v
    | Option.none => Except.error "IndexError"
  | _ => Except.error "TypeError: not subscriptable"

/-- The quote character as a one-character Python string. -/
def quoteStr : PVal := .str quoteChar.toString

/-- Lines 938-959: DefaultValue shape for one string type entry `t`. -/
def check_dv_entry (obj key : String) (row : Row) (i : Nat) (t : String) :
    Except String (List Diag) :=
  match row.DefaultValue with
  | Option.none => Except.ok []
  | Option.some dl =>
    ebind (astGet dl i) fun dvi =>
    if dvi == PVal.pnone then Except.ok []
    else if t = "name" then
      Except.ok (if !pyIsStrList dvi then [Diag.defaultValueWrongType "name" obj key] else [])
    else if t = "array" then
      Except.ok (if !isList dvi then [Diag.defaultValueWrongType "array" obj key] else [])
    else if t = "boolean" then
      Except.ok (if !pyIsBoolList dvi then [Diag.defaultValueWrongType "boolean" obj key] else [])
    else if t = "number" then
      Except.ok (if !pyIsNumList dvi then [Diag.defaultValueWrongType "number" obj key] else [])
    else if t = "integer" then
      Except.ok (if !pyIsIntList dvi then [Diag.defaultValueWrongType "integer" obj key] else [])
    else if pyInStr "string" t then
      if !pyIsStrList dvi then Except.ok [Diag.defaultValueWrongType "string" obj key]
      else
        match dvi with
        | .str _ =>
          ebind (pyFirst dvi) fun c1 =>
          if c1 != quoteStr then Except.ok [Diag.defaultValueQuotes obj key]
          else
            ebind (pyLast dvi) fun c2 =>
            if c2 != quoteStr then Except.ok [Diag.defaultValueQuotes obj key]
            else Except.ok []
        | _ => Except.ok []
    else Except.ok []

/-- Lines 1000-1008: the inner loop over a PossibleValues set for a
string-typed entry (per-element shape and quote checks). -/
def check_pv_string_loop (obj key : String) : List PVal → Except String (List Diag)
  | [] => Except.ok []
  | v :: rest =>
    if !pyIsStrList v then
      ebind (check_pv_string_loop obj key rest) fun ds =>
      Except.ok (Diag.possibleValuesWrongType "string" obj key :: ds)
    else
      match v with
      | .str _ =>
        ebind (pyFirst v) fun c1 =>
        if c1 != quoteStr then
          ebind (check_pv_string_loop obj key rest) fun ds =>
          Except.ok (Diag.possibleValuesQuotes obj key :: ds)
        else
          ebind (pyLast v) fun c2 =>
          if c2 != quoteStr then
            ebind (check_pv_string_loop obj key rest) fun ds =>
            Except.ok (Diag.possibleValuesQuotes obj key :: ds)
          else
            check_pv_string_loop obj key rest
      | _ => check_pv_string_loop obj key rest

/-- Lines 961-1015: PossibleValues shape for one string type entry `t`
(the `string` branch's second quote check reads `DefaultValue[i][-1]`, a
source slip preserved here). -/
def check_pv_entry (obj key : String) (row : Row) (i : Nat) (t : String) :
    Except String (List Diag) :=
  match row.PossibleValues with
  | Option.none => Except.ok []
  | Option.some pl =>
    ebind (astGet pl i) fun pvi =>
    if pvi == PVal.pnone then Except.ok []
    else if t = "name" then
      match pvi with
      | .list inner =>
        Except.ok ((inner.filter (fun v => !pyIsStrList v)).map
          (fun _ => Diag.possibleValuesWrongType "name" obj key))
      | .str _ => Except.ok []
      | _ => Except.ok [Diag.possibleValuesWrongType "name" obj key]
    else if t = "array" then
      match pvi with
      | .list inner =>
        Except.ok ((inner.filter (fun v => !isList v)).map
          (fun _ => Diag.possibleValuesWrongType "array" obj key))
      | _ => Except.ok [Diag.possibleValuesWrongType "array" obj key]
    else if t = "boolean" then
      match pvi with
      | .list inner =>
        Except.ok ((inner.filter (fun v => !pyIsBoolList v)).map
          (fun _ => Diag.possibleValuesWrongType "boolean" obj key))
      | .bool _ => Except.ok []
      | _ => Except.ok [Diag.possibleValuesWrongType "boolean" obj key]
    else if t = "number" then
      match pvi with
      | .list inner =>
        Except.ok ((inner.filter (fun v => !pyIsNumList v)).map
          (fun _ => Diag.possibleValuesWrongType "number" obj key))
      | .int _ => Except.ok []
      | .real _ => Except.ok []
      | .bool _ => Except.ok []
      | _ => Except.ok [Diag.possibleValuesWrongType "number" obj key]
    else if t = "integer" then
      match pvi with
      | .list inner =>
        Except.ok ((inner.filter (fun v => !pyIsIntList v)).map
          (fun _ => Diag.possibleValuesWrongType "integer" obj key))
      | .int _ => Except.ok []
      | .bool _ => Except.ok []
      | _ => Except.ok [Diag.possibleValuesWrongType "integer" obj key]
    else if pyInStr "string" t then
      match pvi with
      | .list inner => check_pv_string_loop obj key inner
      | .str _ =>
        ebind (pyFirst pvi) fun c1 =>
        if c1 != quoteStr then Except.ok [Diag.possibleValuesQuotes obj key]
        else
          -- source line 1012 reads DefaultValue here, not PossibleValues
          ebind (match row.DefaultValue with
            | Option.none => Except.error "TypeError: NoneType not subscriptable"
            | Option.some dl => astGet dl i) fun dv =>
          ebind (pyLast dv) fun c2 =>
          if c2 != quoteStr then Except.ok [Diag.possibleValuesQuotes obj key]
          else Except.ok []
      | _ => Except.ok [Diag.possibleValuesWrongType "str" obj key]
    else Except.ok []

/-- The dead `is None` test of lines 1027 and 1034: dict indexing either
raises KeyError or yields a real object map, never Python `None`, so the
`Bad link` logging branches cannot execute. -/
def isNoneObj (_ : TsvObj) : Bool := false

/-- Lines 1030-1037: the inner loop over a per-alternative Link list:
each literal string target is looked up with plain dict indexing (a
missing target raises KeyError; the `Bad link` branch is dead), nested
lists pass, anything else is a finding. -/
def check_link_list_loop (dom : Dom) (obj key t : String) : List PVal → Except String (List Diag)
  | [] => Except.ok []
  | v :: rest =>
    match v with
    | .str lnk =>
      ebind (dictGet dom lnk) fun lnkobj =>
      ebind (check_link_list_loop dom obj key t rest) fun ds =>
      Except.ok (if isNoneObj lnkobj then Diag.badLink lnk obj key :: ds else ds)
    | .list _ => check_link_list_loop dom obj key t rest
    | _ =>
      ebind (check_link_list_loop dom obj key t rest) fun ds =>
      Except.ok (Diag.linkNotFunction t obj key :: ds)

/-- Lines 1017-1041: Link presence / absence and target existence for one
string type entry `t`. Looking a literal target up in the Dom uses plain
dict indexing, so a missing target raises KeyError here. -/
def check_link_entry (dom : Dom) (obj key : String) (row : Row) (i : Nat) (t : String) :
    Except String (List Diag) :=
  match row.Link with
  | Option.none => Except.ok []
  | Option.some ll =>
    ebind (astGet ll i) fun li =>
    if t ∈ links_required then
      if li == PVal.pnone then Except.ok [Diag.linkMissingForType t obj key]
      else if !pyIsStrList li then Except.ok [Diag.linkNotListForType t obj key]
      else
        match li with
        | .str lnk =>
          ebind (dictGet dom lnk) fun lnkobj =>
          if isNoneObj lnkobj then Except.ok [Diag.badLink lnk obj key]
          else Except.ok []
        | .list inner => check_link_list_loop dom obj key t inner
        | _ => Except.ok []
    else
      if !(li == PVal.pnone) then Except.ok [Diag.linkExistsForType t obj key]
      else Except.ok []

/-- `v not in ("fn:SinceVersion(", "fn:Deprecated(")` on a token value. -/
def tokValNotInTypeFns (v : TokValue) : Bool :=
  match v with
  | .vs s => !(s ∈ (["fn:SinceVersion(", "fn:Deprecated("] : List String))
  | _ => true

/-- Lines 1043-1055: a Type entry that is a list must be a
SinceVersion / Deprecated wrapper around a known type. -/
def check_type_fn_entry (obj key : String) (tl : List PVal) : Except String (List Diag) :=
  ebind (astGet tl 0) fun t0 =>
  if !isList t0 then
    ebind (pytype t0) fun ty =>
    ebind (pAnd (Except.ok (ty ≠ "FUNC_NAME"))
      (emap (pyvalue t0) tokValNotInTypeFns)) fun bad =>
    ebind (ebind (astGet tl 1) fun t1 => pysub t1 1) fun t11 =>
    ebind (pOr (Except.ok (!(match t11 with | .str _ => true | _ => false)))
      (Except.ok (match t11 with | .str s => s ∉ known_types | _ => true))) fun badTy =>
    Except.ok ((if bad then [Diag.typeFnUnknownFunction obj key] else []) ++
      (if badTy then [Diag.typeFnUnknownType obj key] else []))
  else
    ebind (pysub t0 0) fun t00 =>
    ebind (pytype t00) fun ty =>
    ebind (pAnd (Except.ok (ty ≠ "FUNC_NAME"))
      (emap (pyvalue t00) tokValNotInTypeFns)) fun bad =>
    ebind (ebind (pysub t0 1) fun t01 => pysub t01 1) fun t011 =>
    ebind (pOr (Except.ok (!(match t011 with | .str _ => true | _ => false)))
      (Except.ok (match t011 with | .str s => s ∉ known_types | _ => true))) fun badTy =>
    Except.ok ((if bad then [Diag.typeFnUnknownFunction obj key] else []) ++
      (if badTy then [Diag.typeFnUnknownType obj key] else []))

/-- Lines 933-1055: the body of the per-type-alternative loop for entry
`t` at position `i`. -/
def check_type_entry (dom : Dom) (obj key : String) (row : Row) (i : Nat) (t : PVal) :
    Except String (List Diag) :=
  match t with
  | .str s =>
    let d1 := if s ∉ known_types then [Diag.unknownType s obj key] else []
    ebind (check_dv_entry obj key row i s) fun d2 =>
    ebind (check_pv_entry obj key row i s) fun d3 =>
    ebind (check_link_entry dom obj key row i s) fun d4 =>
    Except.ok (d1 ++ d2 ++ d3 ++ d4)
  | .list tl => check_type_fn_entry obj key tl
  | _ => Except.ok []

/-- The `for i, t in enumerate(row['Type'])` loop of lines 933-1055. -/
def check_type_loop (dom : Dom) (obj key : String) (row : Row) :
    Nat → List PVal → Except String (List Diag)
  | _, [] => Except.ok []
  | i, t :: rest =>
    ebind (check_type_entry dom obj key row i t) fun d =>
    ebind (check_type_loop dom obj key row (i + 1) rest) fun ds =>
    Except.ok (d ++ ds)

/-- Lines 883-1055: every per-row check of `__validate_pdf_dom`, in
source order. -/
def check_row (dom : Dom) (obj key : String) (row : Row) : Except String (List Diag) :=
  ebind (check_since_version obj key row) fun d3 =>
  ebind (check_required obj key row) fun d5 =>
  ebind (check_stream_ir obj key row) fun d7 =>
  ebind (check_type_loop dom obj key row 0 row.«Type») fun dT =>
  Except.ok (check_key_chars obj key ++ check_types_sorted obj key row ++ d3 ++
    check_deprecated obj key row ++ d5 ++ check_ir_count obj key row ++ d7 ++
    check_inheritable obj key row ++ check_dv_count obj key row ++ dT)

/-- Lines 1060-1076: count incoming reduced-link references to `obj_name`
over the whole Dom; an object with none is an unlinked ("orphan")
diagnostic unless it is one of the two declared roots. Pure: the per-row
`reduce_linkslist` call receives an actual list and an explicit fresh
accumulator. -/
def row_link_count (obj_name : String) (r : Row) : Nat :=
  match r.Link with
  | Option.none => 0
  | Option.some ll => ((reduce_linkslist_list ll []).filter (fun v => v = obj_name)).length

/-- Lines 1060-1076 continued: the total number of incoming references
found, and the `Unlinked object` critical when there are none and the
object is not a declared root. -/
def check_unlinked (dom : Dom) (obj_name : String) : List Diag :=
  let found := (dom.map (fun fobj => (fobj.2.map (fun kr => row_link_count obj_name kr.2)).sum)).sum
  if found = 0 ∧ obj_name ≠ "FileTrailer" ∧ obj_name ≠ "XRefStream" then
    [Diag.unlinkedObject obj_name]
  else
    []

/-- `Arlington.__validate_pdf_dom` (lines 861-1076): per-object duplicate
and emptiness checks, every per-row check, then the per-object
incoming-link check, collecting every finding; a Python exception
anywhere aborts the whole pass. -/
def validate_pdf_dom (filecount : Nat) (dom : Dom) : Except String (List Diag) := do
  if filecount = 0 || dom.length = 0 then
    return [Diag.noDom]
  let mut diags : List Diag := []
  for op in dom do
    let obj := op.2
    if obj.length ≠ (obj.map Prod.fst).eraseDups.length then
      diags := diags ++ [Diag.duplicateKeys op.1]
    if obj.length = 0 then
      diags := diags ++ [Diag.noKeys op.1]
    for kr in obj do
      diags := diags ++ (← check_row dom op.1 kr.1 kr.2)
    diags := diags ++ check_unlinked dom op.1
  return diags

/-- The whole constructor `Arlington.__init__`: ingest all files, then,
when validating, run the static validator — all inside one `try`, whose
`except` clause only logs, so an error from either phase surfaces in the
third component and everything already accumulated is kept. -/
def arlington_init (validating : Bool) (files : List TsvFile) :
    Dom × List Diag × Option String :=
  match arlington_init_aux validating files [] [] with
  | (dom, ds, Option.some e) => (dom, ds, Option.some e)
  | (dom, ds, Option.none) =>
    if validating then
      match validate_pdf_dom files.length dom with
      | Except.error e => (dom, ds, Option.some e)
      | Except.ok vd => (dom, ds ++ vd, Option.none)
    else
      (dom, ds, Option.none)

/-! ### The document matcher (lines 1078-1534)

`process_dict` / `process_stream` / `process_array` walk a parsed
document against the Dom. The document provider (pikepdf) is modelled by
`PdfObj`; `other` stands for any runtime class outside the dispatched
ones, which the source answers with `logging.critical` + `sys.exit()`.
The walker's `print` calls accumulate into the returned report lines and
`self.__visited` is threaded explicitly. The three Python methods share
their ~100-line per-child dispatch verbatim; it is factored here into
`process_entry`, parameterized by the container word of the exit message.
`logging.critical` calls made from `__find_pdf_type` during a walk go to
the logger, not the report, and are dropped here (they never affect
control flow). -/

/-- A document node as exposed by the document provider. `objgen` is the
reference identity (`(0, 0)` for direct objects); `name` carries its
rendered form including the leading slash. -/
inductive PdfObj where
  | dict (objgen : Nat × Nat) (entries : List (String × PdfObj))
  | stream (objgen : Nat × Nat) (entries : List (String × PdfObj))
  | array (objgen : Nat × Nat) (elems : List PdfObj)
  | name (s : String)
  | string (s : String)
  | bool (b : Bool)
  | int (i : Int)
  | real (q : Rat)
  | null
  | other (cls : String)
deriving Repr

/-- Python `str((a, b))` for an objgen pair. -/
def fmtObjgen (g : Nat × Nat) : String :=
  "(" ++ toString g.1 ++ ", " ++ toString g.2 ++ ")"

/-- Python `"%.5f" % q` (the walked values here make the rounding mode
irrelevant; round-half-up is used). -/
def fmt5 (q : Rat) : String :=
  let neg := q < 0
  let m := q.num.natAbs
  let n : Nat := (200000 * m + q.den) / (2 * q.den)
  let ip := n / 100000
  let fp := n % 100000
  (if neg then "-" else "") ++ toString ip ++ "." ++ (toString (100000 + fp)).drop 1

/-- Python `str(childlinks)` for the report lines: `None` or a list of
quoted strings. -/
def pyListStr (l : Option (List String)) : String :=
  match l with
  | Option.none => "None"
  | Option.some xs =>
    "[" ++ String.intercalate ", "
      (xs.map (fun s => quoteChar.toString ++ s ++ quoteChar.toString)) ++ "]"

/-- Numeric coercion for `%` float formatting (`float(True)` is `1.0`). -/
def pdfNum : PdfObj → Except String Rat
  | .int i => Except.ok (i : Rat)
  | .real q => Except.ok q
  | .bool b => Except.ok (if b then 1 else 0)
  | _ => Except.error "TypeError: not a number"

/-- `l[i]` on a document array. -/
def arrGet (l : List PdfObj) (i : Nat) : Except String PdfObj :=
  match l.get? i with
  | Option.some v => Except.ok v
  | Option.none => Except.error "IndexError"

/-- `Arlington.process_matrix`: render a 6-element numeric array. -/
def process_matrix (mtx : List PdfObj) (pth : String) : Except String String := do
  let v0 ← pdfNum (← arrGet mtx 0)
  let v1 ← pdfNum (← arrGet mtx 1)
  let v2 ← pdfNum (← arrGet mtx 2)
  let v3 ← pdfNum (← arrGet mtx 3)
  let v4 ← pdfNum (← arrGet mtx 4)
  let v5 ← pdfNum (← arrGet mtx 5)
  return "=" ++ pth ++ "=[ " ++ fmt5 v0 ++ " " ++ fmt5 v1 ++ " " ++ fmt5 v2 ++ " " ++
    fmt5 v3 ++ " " ++ fmt5 v4 ++ " " ++ fmt5 v5 ++ " ] <as matrix>"

/-- `Arlington.process_rect`: render a 4-element numeric array. -/
def process_rect (rct : List PdfObj) (pth : String) : Except String String := do
  let v0 ← pdfNum (← arrGet rct 0)
  let v1 ← pdfNum (← arrGet rct 1)
  let v2 ← pdfNum (← arrGet rct 2)
  let v3 ← pdfNum (← arrGet rct 3)
  return "=" ++ pth ++ "=[ " ++ fmt5 v0 ++ " " ++ fmt5 v1 ++ " " ++ fmt5 v2 ++ " " ++
    fmt5 v3 ++ " ] <as rectangle>"

/-- Key sort used by `for k in sorted(dct.as_dict())`. -/
def insertKeyed (p : String × PdfObj) : List (String × PdfObj) → List (String × PdfObj)
  | [] => [p]
  | q :: rest => if pyStrLe p.1 q.1 then p :: q :: rest else q :: insertKeyed p rest

/-- Sort dictionary entries by key. -/
def sortByKey (l : List (String × PdfObj)) : List (String × PdfObj) :=
  l.foldr insertKeyed []

/-- The row-selection step of `process_dict` / `process_stream`
(lines 1112-1125 / 1260-1273): when the schema object declares a wildcard
key the wildcard row is taken, otherwise an exact match on the key name
(leading slash stripped), otherwise unmatched. Returns the chosen row and
the status mark. -/
def dict_key_row (wildcard : Bool) (arlobj : Option TsvObj) (k : String) :
    Except String (Option Row × String) :=
  if wildcard then
    match arlobj with
    | Option.some o => ebind (dictGet o "*") fun r => Except.ok (Option.some r, "=")
    | Option.none => Except.error "TypeError: NoneType not subscriptable"
  else
    match arlobj with
    | Option.some o =>
      if dictHas o (k.drop 1) then
        ebind (dictGet o (k.drop 1)) fun r => Except.ok (Option.some r, "?")
      else
        Except.ok (Option.none, "+")
    | Option.none => Except.ok (Option.none, "+")

/-- The row-selection step of `process_array` (lines 1414-1421): wildcard
row, else index lookup by decimal key when the index is within the schema
object's size. -/
def array_index_row (wildcard : Bool) (arlobj : Option TsvObj) (i : Nat) :
    Except String (Option Row × String) := do
  if wildcard then
    match arlobj with
    | Option.some o =>
      let r ← dictGet o "*"
      return (Option.some r, "=")
    | Option.none => Except.error "TypeError: NoneType not subscriptable"
  else
    match arlobj with
    | Option.some o =>
      if i < o.length then
        let r ← dictGet o (toString i)
        return (Option.some r, "?")
      else
        return (Option.none, "+")
    | Option.none => return (Option.none, "+")

/-- The shared prologue of the three walkers (e.g. lines 1101-1110):
reduce the candidate object names, load the first one from the Dom, and
probe for a wildcard key. -/
def walk_prologue (dom : Dom) (arlnames : Option (List String)) :
    Except String (Option TsvObj × Bool) := do
  match arlnames with
  | Option.some names =>
    let rl := reduce_linkslist_list (names.map PVal.str) []
    let first ← (match rl.head? with
      | Option.some h => Except.ok h
      | Option.none => Except.error "IndexError")
    let obj ← dictGet dom first
    return (Option.some obj, dictHas obj "*")
  | Option.none => return (Option.none, false)

/-- `row['Type'][idx] == t` for a string `t`. -/
def typeEntryIs (v : PVal) (t : String) : Bool :=
  v == PVal.str t

mutual

/-- `Arlington.process_dict`: prologue, then the sorted key loop. -/
def process_dict (dom : Dom) :
    Nat → List (String × PdfObj) → Option (List String) → String → List (Nat × Nat) →
    Except String (List (Nat × Nat) × List String)
  | 0, _, _, _, _ => Except.error "walk fuel"
  | f + 1, entries, arlnames, pth, visited => do
    let (arlobj, wildcard) ← walk_prologue dom arlnames
    process_dict_loop dom f (sortByKey entries) arlobj wildcard pth visited

/-- The `for k in sorted(dct.as_dict())` loop of `process_dict`. -/
def process_dict_loop (dom : Dom) :
    Nat → List (String × PdfObj) → Option TsvObj → Bool → String → List (Nat × Nat) →
    Except String (List (Nat × Nat) × List String)
  | 0, _, _, _, _, _ => Except.error "walk fuel"
  | _ + 1, [], _, _, _, visited => Except.ok (visited, [])
  | f + 1, (k, o) :: rest, arlobj, wildcard, pth, visited => do
    let (row, status) ← dict_key_row wildcard arlobj k
    let p := pth ++ k
    let (v2, out1) ← process_entry "dictionary" dom f row status p o visited
    let (v3, out2) ← process_dict_loop dom f rest arlobj wildcard pth v2
    return (v3, out1 ++ out2)

/-- `Arlington.process_stream`: identical to `process_dict` over the
stream's dictionary. -/
def process_stream (dom : Dom) :
    Nat → List (String × PdfObj) → Option (List String) → String → List (Nat × Nat) →
    Except String (List (Nat × Nat) × List String)
  | 0, _, _, _, _ => Except.error "walk fuel"
  | f + 1, entries, arlnames, pth, visited => do
    let (arlobj, wildcard) ← walk_prologue dom arlnames
    process_stream_loop dom f (sortByKey entries) arlobj wildcard pth visited

/-- The key loop of `process_stream`. -/
def process_stream_loop (dom : Dom) :
    Nat → List (String × PdfObj) → Option TsvObj → Bool → String → List (Nat × Nat) →
    Except String (List (Nat × Nat) × List String)
  | 0, _, _, _, _, _ => Except.error "walk fuel"
  | _ + 1, [], _, _, _, visited => Except.ok (visited, [])
  | f + 1, (k, o) :: rest, arlobj, wildcard, pth, visited => do
    let (row, status) ← dict_key_row wildcard arlobj k
    let p := pth ++ k
    let (v2, out1) ← process_entry "stream" dom f row status p o visited
    let (v3, out2) ← process_stream_loop dom f rest arlobj wildcard pth v2
    return (v3, out1 ++ out2)

/-- `Arlington.process_array`: prologue, then the indexed element loop. -/
def process_array (dom : Dom) :
    Nat → List PdfObj → Option (List String) → String → List (Nat × Nat) →
    Except String (List (Nat × Nat) × List String)
  | 0, _, _, _, _ => Except.error "walk fuel"
  | f + 1, elems, arlnames, pth, visited => do
    let (arlobj, wildcard) ← walk_prologue dom arlnames
    process_array_loop dom f 0 elems arlobj wildcard pth visited

/-- The `for i, o in enumerate(ary)` loop of `process_array`. -/
def process_array_loop (dom : Dom) :
    Nat → Nat → List PdfObj → Option TsvObj → Bool → String → List (Nat × Nat) →
    Except String (List (Nat × Nat) × List String)
  | 0, _, _, _, _, _, _ => Except.error "walk fuel"
  | _ + 1, _, [], _, _, _, visited => Except.ok (visited, [])
  | f + 1, i, o :: rest, arlobj, wildcard, pth, visited => do
    let (row, status) ← array_index_row wildcard arlobj i
    let p := pth ++ "[" ++ toString i ++ "]"
    let (v2, out1) ← process_entry "array" dom f row status p o visited
    let (v3, out2) ← process_array_loop dom f (i + 1) rest arlobj wildcard pth v2
    return (v3, out1 ++ out2)

/-- The per-child dispatch shared verbatim by the three walkers (dict
version: lines 1127-1240). `ctx` is the container word of the
`Unexpected type` critical message; `sys.exit()` is the error case. -/
def process_entry (ctx : String) (dom : Dom) :
    Nat → Option Row → String → String → PdfObj → List (Nat × Nat) →
    Except String (List (Nat × Nat) × List String)
  | 0, _, _, _, _, _ => Except.error "walk fuel"
  | f + 1, row, status0, p, o, visited => do
    match o with
    | .dict g entries => do
      let mut status := status0
      let mut childlinks : Option (List String) := Option.none
      let mut is_tree := false
      match row with
      | Option.some r =>
        let pr := find_pdf_type (Sum.inr ["dictionary", "name-tree", "number-tree"]) r.«Type» 0
        if pr.1 ≠ -1 then
          status := "="
          let li ← (match r.Link with
            | Option.none => Except.error "TypeError: NoneType not subscriptable"
            | Option.some ll => astGet ll pr.1.toNat)
          childlinks ← reduce_linkslist li []
          let te ← astGet r.«Type» pr.1.toNat
          is_tree := typeEntryIs te "name-tree" || typeEntryIs te "number-tree"
      | Option.none => pure ()
      let mut p1 := ""
      let mut vis := visited
      if g ≠ (0, 0) then
        if g ∈ vis then
          return (vis, [status ++ p ++ " ** already visited dict " ++ fmtObjgen g ++ "!"])
        else
          vis := vis ++ [g]
          p1 := " " ++ fmtObjgen g
      if !is_tree then
        let line := status ++ p ++ p1 ++ " <as " ++ pyListStr childlinks ++ ">"
        let (v2, out) ← process_dict dom f entries childlinks p vis
        return (v2, line :: out)
      else
        return (vis, [status ++ p ++ p1 ++ " <as name/number-tree>"])
    | .stream g entries => do
      let mut status := status0
      let mut childlinks : Option (List String) := Option.none
      match row with
      | Option.some r =>
        let pr := find_pdf_type (Sum.inl "stream") r.«Type» 0
        if pr.1 ≠ -1 then
          status := "="
          let li ← (match r.Link with
            | Option.none => Except.error "TypeError: NoneType not subscriptable"
            | Option.some ll => astGet ll pr.1.toNat)
          childlinks ← reduce_linkslist li []
      | Option.none => pure ()
      let mut p1 := ""
      let mut vis := visited
      if g ≠ (0, 0) then
        if g ∈ vis then
          return (vis, [status ++ p ++ " ** already visited stm " ++ fmtObjgen g ++ "!"])
        else
          vis := vis ++ [g]
          p1 := " " ++ fmtObjgen g
      let line := status ++ p ++ p1 ++ " <as " ++ pyListStr childlinks ++ ">"
      let (v2, out) ← process_stream dom f entries childlinks p vis
      return (v2, line :: out)
    | .array g elems => do
      let mut status := status0
      let mut childlinks : Option (List String) := Option.none
      let mut is_matrix := false
      let mut is_rect := false
      match row with
      | Option.some r =>
        let pr := find_pdf_type (Sum.inr ["array", "matrix", "rectangle"]) r.«Type» 0
        if pr.1 ≠ -1 then
          status := "="
          let te ← astGet r.«Type» pr.1.toNat
          if typeEntryIs te "array" then
            let li ← (match r.Link with
              | Option.none => Except.error "TypeError: NoneType not subscriptable"
              | Option.some ll => astGet ll pr.1.toNat)
            childlinks ← reduce_linkslist li []
          else if typeEntryIs te "matrix" then
            is_matrix := true
          if typeEntryIs te "rectangle" then
            is_rect := true
      | Option.none => pure ()
      let mut p1 := ""
      let mut vis := visited
      if g ≠ (0, 0) then
        if g ∈ vis then
          return (vis, [status ++ p ++ " ** already visited array " ++ fmtObjgen g ++ "!"])
        else
          vis := vis ++ [g]
          p1 := " " ++ fmtObjgen g
      if is_matrix then
        let line ← process_matrix elems (status ++ p ++ p1)
        return (vis, [line])
      else if is_rect then
        let line ← process_rect elems (status ++ p ++ p1)
        return (vis, [line])
      else
        let line := status ++ p ++ p1 ++ " <as " ++ pyListStr childlinks ++ ">"
        let (v2, out) ← process_array dom f elems childlinks p vis
        return (v2, line :: out)
    | .name s => do
      let mut status := status0
      match row with
      | Option.some r =>
        if (find_pdf_type (Sum.inl "name") r.«Type» 0).1 ≠ -1 then
          status := "="
      | Option.none => pure ()
      return (visited, [status ++ p ++ "=" ++ s])
    | .string s => do
      let mut status := status0
      match row with
      | Option.some r =>
        if (find_pdf_type (Sum.inr ["string", "date"]) r.«Type» 0).1 ≠ -1 then
          status := "="
      | Option.none => pure ()
      return (visited, [status ++ p ++ "=(" ++ s ++ ")"])
    | .bool b => do
      let mut status := status0
      match row with
      | Option.some r =>
        if (find_pdf_type (Sum.inr ["boolean"]) r.«Type» 0).1 ≠ -1 then
          status := "="
      | Option.none => pure ()
      if b then
        return (visited, [status ++ p ++ "=true"])
      else
        return (visited, [status ++ p ++ "=false"])
    | .int n => do
      let mut status := status0
      let mut s := toString n
      match row with
      | Option.some r =>
        let pr := find_pdf_type (Sum.inr ["integer", "number", "bitmask"]) r.«Type» 0
        if pr.1 ≠ -1 then
          status := "="
          let te ← astGet r.«Type» pr.1.toNat
          if typeEntryIs te "number" then
            s := fmt5 (n : Rat)
          else if typeEntryIs te "bitmask" then
            s := toString n ++ " <bitmask>"
      | Option.none => pure ()
      return (visited, [status ++ p ++ "=" ++ s])
    | .real q => do
      let mut status := status0
      match row with
      | Option.some r =>
        if (find_pdf_type (Sum.inl "number") r.«Type» 0).1 ≠ -1 then
          status := "="
      | Option.none => pure ()
      return (visited, [status ++ p ++ "=" ++ fmt5 q])
    | .null => do
      let mut status := status0
      match row with
      | Option.some r =>
        if (find_pdf_type (Sum.inl "null") r.«Type» 0).1 ≠ -1 then
          status := "="
      | Option.none => pure ()
      return (visited, [status ++ p ++ "=null"])
    | .other cls =>
      Except.error ("sys.exit: Unexpected type " ++ cls ++ " processing " ++ ctx ++ "!")

end

/-! ### Spec-side definitions

`specUnreachable` is written from the specification's words, not from the
source, in order to compare the claimed orphan semantics against the
implemented one. -/

/-- All reduced link targets leaving one schema object. -/
def objTargets (obj : TsvObj) : List String :=
  obj.foldl (fun acc kr =>
    match kr.2.Link with
    | Option.none => acc
    | Option.some ll => acc ++ reduce_linkslist_list ll []) []

/-- The declared root object names of the spec ("document trailer /
cross-reference-stream root"). -/
def specRoots : List String := ["FileTrailer", "XRefStream"]

/-- One round of reachability expansion over the Dom's Link edges. -/
def specReachStep (dom : Dom) (cur : List String) : List String :=
  (cur ++ cur.foldl (fun acc o =>
    match (dom.filter (fun p => p.1 = o)).head? with
    | Option.none => acc
    | Option.some p => acc ++ objTargets p.2) []).eraseDups

/-- Iterated expansion (|Dom| rounds reach the fixpoint). -/
def specReachableAux (dom : Dom) : Nat → List String → List String
  | 0, cur => cur
  | n + 1, cur => specReachableAux dom n (specReachStep dom cur)

/-- The objects reachable from the declared roots via directed transitive
`Link` edges — the spec's words (`Modelled from the spec:` reachability of
§4.5 / §8, used only to state what the claim asserts). -/
def specReachable (dom : Dom) : List String :=
  specReachableAux dom (dom.length + 1) specRoots

/-- The claim's orphan set: objects of the Dom not reachable from a
declared root (roots excepted). -/
def specUnreachable (dom : Dom) : List String :=
  (dom.map Prod.fst).filter (fun o => o ∉ specReachable dom ∧ o ∉ specRoots)

/-! ### The shared-default-argument model for the reduction helpers

Python evaluates a `def`'s default parameter value once, at function
definition time; `__reduce_typelist` and `__reduce_linkslist` default
`reduced_list` to a list literal and mutate it in place, returning the
very same object. Every call that omits the argument therefore starts
from whatever previous defaulted calls left behind, and its result
becomes the new shared state. A sequence of defaulted calls is modelled
by threading that shared list through the fold below. -/

/-- Successive defaulted calls of `__reduce_typelist` on the inputs
`ls`, starting from shared default state `shared`: each call's result is
returned and becomes the next call's accumulator. -/
def typelist_defaulted_calls : List (List PVal) → List String → List (List String)
  | [], _ => []
  | l :: ls, shared =>
    let r := reduce_typelist l shared
    r :: typelist_defaulted_calls ls r

/-- Successive defaulted calls of `__reduce_linkslist` (list inputs). -/
def linkslist_defaulted_calls : List (List PVal) → List String → List (List String)
  | [], _ => []
  | l :: ls, shared =>
    let r := reduce_linkslist_list l shared
    r :: linkslist_defaulted_calls ls r

/-- Does a diagnostic carry the sortedness constructor? (Proof helper for
membership reasoning.) -/
def Diag.isTS : Diag → Bool
  | .typesNotSorted _ _ => true
  | _ => false


/-- The diagnostics attached to one `FindStep`. -/
def FindStep.ds : FindStep → List Diag
  | .hit ds => ds
  | .stop ds => ds
  | .next ds => ds

/-! ### Concrete fixtures used by the claim theorems -/

/-- A raw row for a plain required direct integer entry. -/
def rawCount : RawRow :=
  { Key := "Count", «Type» := "integer", SinceVersion := "1.0", DeprecatedIn := "",
    Required := "TRUE", IndirectReference := "FALSE", Inheritable := "FALSE",
    DefaultValue := "", PossibleValues := "", SpecialCase := "", Link := "", Note := "" }

/-- The same raw row with an empty key name. -/
def rawEmptyKey : RawRow := { rawCount with Key := "" }

/-- A raw row with three type alternatives but a single
IndirectReference value. -/
def rawThree : RawRow :=
  { rawCount with
    Key := "V", «Type» := "array;dictionary;stream" }

/-- A plain ingested row: one integer alternative, optional, direct. -/
def baseRow : Row :=
  { «Type» := [.str "integer"], SinceVersion := .real 1, DeprecatedIn := Option.none,
    Required := [.bool false], IndirectReference := [.bool false], Inheritable := .bool false,
    DefaultValue := Option.none, PossibleValues := Option.none, SpecialCase := Option.none,
    Link := Option.none, Note := Option.none }

/-- A dictionary-typed row whose Link names the object `t`. -/
def rowLinkTo (t : String) : Row :=
  { baseRow with «Type» := [.str "dictionary"], Link := Option.some [.str t] }

/-- A wildcard-key row with `Required == TRUE`. -/
def rowWildRequired : Row := { baseRow with Required := [.bool true] }

/-- A Dom whose only row is a wildcard key with `Required == TRUE`. -/
def domWildRequired : Dom := [("FileTrailer", [("*", rowWildRequired)])]

/-- A row linking to an object name absent from every Dom below. -/
def rowBadLink : Row := rowLinkTo "Missing"

/-- A Dom whose only Link names a missing object. -/
def domBadLink : Dom := [("FileTrailer", [("K", rowBadLink)])]

/-- The same Dom with the Link naming an existing object. -/
def domGoodLink : Dom := [("FileTrailer", [("K", rowLinkTo "FileTrailer")])]

/-- A Dom where `A` and `B` link only each other and no root reaches
them. -/
def domCycle : Dom :=
  [("FileTrailer", [("K", baseRow)]),
   ("A", [("K", rowLinkTo "B")]),
   ("B", [("K", rowLinkTo "A")])]

/-- A Dom with an object nothing links to. -/
def domOrphan : Dom :=
  [("FileTrailer", [("K", baseRow)]),
   ("Orphan", [("K", baseRow)])]

/-- A row whose reduced type list is out of alphabetical order. -/
def rowUnsorted : Row := { baseRow with «Type» := [.str "integer", .str "array"] }

/-- A number-typed row (exact-key candidate in the wildcard fixtures). -/
def rowExact : Row := { baseRow with «Type» := [.str "number"] }

/-- An integer-typed row (the wildcard candidate). -/
def rowWild : Row := baseRow

/-- A schema object declaring both the literal key `X` and a wildcard. -/
def arlobjBoth : TsvObj := [("X", rowExact), ("*", rowWild)]

/-- A Dom carrying `arlobjBoth`. -/
def domBoth : Dom := [("T", arlobjBoth)]

/-- The same Dom without the wildcard row. -/
def domExactOnly : Dom := [("T", [("X", rowExact)])]

/-- An indirect dictionary node, reference `(3, 0)`. -/
def cycInner : PdfObj := .dict (3, 0) []

/-- A dictionary node that contains a second occurrence of the same
reference `(3, 0)` — the unrolling of a self-referential document. -/
def cycNode : PdfObj := .dict (3, 0) [("/Next", cycInner)]

/-! ### Proof battery: accumulator behaviour, sortedness, and which
diagnostics each check can emit -/


mutual

theorem reduce_typelist_one_acc (t : PVal) (acc : List String) :
    reduce_typelist_one t acc = acc ++ reduce_typelist_one t [] := by
  cases t with
  | str s =>
    simp only [reduce_typelist_one]
    split <;> simp
  | list l =>
    simp only [reduce_typelist_one]
    exact reduce_typelist_acc l acc
  | _ => simp [reduce_typelist_one]

theorem reduce_typelist_acc (l : List PVal) (acc : List String) :
    reduce_typelist l acc = acc ++ reduce_typelist l [] := by
  cases l with
  | nil => simp [reduce_typelist]
  | cons t rest =>
    simp only [reduce_typelist]
    rw [reduce_typelist_acc rest (reduce_typelist_one t acc),
      reduce_typelist_acc rest (reduce_typelist_one t []),
      reduce_typelist_one_acc t acc]
    simp

end

mutual

theorem reduce_linkslist_one_acc (t : PVal) (acc : List String) :
    reduce_linkslist_one t acc = acc ++ reduce_linkslist_one t [] := by
  cases t with
  | str s => simp [reduce_linkslist_one]
  | list l =>
    simp only [reduce_linkslist_one]
    exact reduce_linkslist_list_acc l acc
  | _ => simp [reduce_linkslist_one]

theorem reduce_linkslist_list_acc (l : List PVal) (acc : List String) :
    reduce_linkslist_list l acc = acc ++ reduce_linkslist_list l [] := by
  cases l with
  | nil => simp [reduce_linkslist_list]
  | cons t rest =>
    simp only [reduce_linkslist_list]
    rw [reduce_linkslist_list_acc rest (reduce_linkslist_one t acc),
      reduce_linkslist_list_acc rest (reduce_linkslist_one t []),
      reduce_linkslist_one_acc t acc]
    simp

end

theorem pyStrLe_iff (a b : String) : pyStrLe a b = true ↔ a ≤ b := by
  unfold pyStrLe
  rw [Bool.or_eq_true, decide_eq_true_eq, beq_iff_eq, ← String.lt_iff_toList_lt]
  constructor
  · rintro (h | rfl)
    · exact le_of_lt h
    · exact le_refl a
  · intro h
    exact (lt_or_eq_of_le h).imp id id

theorem is_sorted_str_iff (l : List String) :
    is_sorted_str l = true ↔ List.Chain' (fun a b : String => a ≤ b) l := by
  rw [List.chain'_iff_get]
  unfold is_sorted_str
  rw [List.all_eq_true]
  simp only [List.get_eq_getElem]
  constructor
  · intro h i hi
    have := h i (List.mem_range.mpr hi)
    rw [List.getD_eq_getElem l "" (by omega), List.getD_eq_getElem l "" (by omega)] at this
    exact (pyStrLe_iff _ _).mp this
  · intro h i hi
    rw [List.mem_range] at hi
    rw [List.getD_eq_getElem l "" (by omega), List.getD_eq_getElem l "" (by omega)]
    exact (pyStrLe_iff _ _).mpr (h i hi)

theorem ebind_ok {α β : Type} {x : Except String α} {f : α → Except String β} {b : β}
    (h : ebind x f = Except.ok b) : ∃ a, x = Except.ok a ∧ f a = Except.ok b := by
  cases x with
  | error e => simp [ebind] at h
  | ok a => exact ⟨a, rfl, by simpa [ebind] using h⟩

theorem ebind_eq_ok {α β : Type} {x : Except String α} {f : α → Except String β} {b : β} :
    (ebind x f = Except.ok b) ↔ ∃ a, x = Except.ok a ∧ f a = Except.ok b := by
  constructor
  · exact ebind_ok
  · rintro ⟨a, rfl, hf⟩
    simpa [ebind] using hf

set_option maxHeartbeats 1000000 in
theorem check_dv_entry_no_ts (o k : String) (row : Row) (i : Nat) (t : String)
    (out : List Diag) (h : check_dv_entry o k row i t = Except.ok out) :
    ∀ d ∈ out, d.isTS = false := by
  unfold check_dv_entry at h
  rcases hdv : row.DefaultValue with _ | dl <;> rw [hdv] at h
  · injection h with h; subst h; simp
  · rw [ebind_eq_ok] at h
    obtain ⟨dvi, hget, h⟩ := h
    repeat' first
      | split at h
      | (rw [ebind_eq_ok] at h; obtain ⟨_, _, h⟩ := h)
    all_goals (injection h with h; subst h; simp [Diag.isTS])

theorem check_pv_string_loop_no_ts (o k : String) :
    ∀ (l : List PVal) (out : List Diag), check_pv_string_loop o k l = Except.ok out →
      ∀ d ∈ out, d.isTS = false := by
  intro l
  induction l with
  | nil => intro out h; injection h with h; subst h; simp
  | cons v rest ih =>
    intro out h
    unfold check_pv_string_loop at h
    repeat' first
      | split at h
      | (rw [ebind_eq_ok] at h; obtain ⟨_, _, h⟩ := h)
    all_goals (try (injection h with h; subst h))
    all_goals intro d hd
    all_goals first
      | exact ih _ (by assumption) d hd
      | (rcases List.mem_cons.mp hd with rfl | hd2
         · rfl
         · exact ih _ (by assumption) d hd2)

mutual

theorem find_pdf_type_one_no_ts (types : Sum String (List String)) (t : PVal) :
    ∀ d ∈ (find_pdf_type_one types t).ds, d.isTS = false := by
  cases t with
  | str s =>
    unfold find_pdf_type_one
    rcases types with t1 | tl
    all_goals repeat' split
    all_goals simp [FindStep.ds, Diag.isTS]
  | list l =>
    unfold find_pdf_type_one
    simp only []
    split <;> simp only [FindStep.ds] <;> exact find_pdf_type_no_ts types l 0
  | _ => unfold find_pdf_type_one; simp [FindStep.ds]

theorem find_pdf_type_no_ts (types : Sum String (List String)) (l : List PVal) (i : Nat) :
    ∀ d ∈ (find_pdf_type types l i).2, d.isTS = false := by
  cases l with
  | nil => simp [find_pdf_type]
  | cons t rest =>
    unfold find_pdf_type
    have h1 := find_pdf_type_one_no_ts types t
    split
    · intro d hd
      apply h1
      simp_all [FindStep.ds]
    · intro d hd
      apply h1
      simp_all [FindStep.ds]
    · intro d hd
      simp only [List.mem_append] at hd
      rcases hd with hd | hd
      · apply h1; simp_all [FindStep.ds]
      · exact find_pdf_type_no_ts types rest (i + 1) d hd

end

theorem isTS_ne (o k : String) {d : Diag} (h : d.isTS = false) :
    d ≠ Diag.typesNotSorted o k := by
  intro he
  subst he
  simp [Diag.isTS] at h

theorem check_since_version_loop_no_ts (o k : String) :
    ∀ (l : List PVal) (out : List Diag), check_since_version_loop o k l = Except.ok out →
      ∀ d ∈ out, d.isTS = false := by
  intro l
  induction l with
  | nil => intro out h; injection h with h; subst h; simp
  | cons v rest ih =>
    intro out h
    unfold check_since_version_loop at h
    repeat' first
      | split at h
      | (rw [ebind_eq_ok] at h; obtain ⟨_, _, h⟩ := h)
    all_goals (try (injection h with h; subst h))
    all_goals intro d hd
    all_goals first
      | exact ih _ (by assumption) d hd
      | (rcases List.mem_cons.mp hd with rfl | hd2
         · rfl
         · exact ih _ (by assumption) d hd2)

theorem check_since_version_no_ts (o k : String) (row : Row) (out : List Diag)
    (h : check_since_version o k row = Except.ok out) : ∀ d ∈ out, d.isTS = false := by
  unfold check_since_version at h
  repeat' split at h
  case _ l _ => exact check_since_version_loop_no_ts o k l out h
  all_goals (injection h with h; subst h; simp [Diag.isTS])

theorem check_required_loop_no_ts (o k : String) :
    ∀ (l : List PVal) (out : List Diag), check_required_loop o k l = Except.ok out →
      ∀ d ∈ out, d.isTS = false := by
  intro l
  induction l with
  | nil => intro out h; injection h with h; subst h; simp
  | cons v rest ih =>
    intro out h
    unfold check_required_loop at h
    repeat' first
      | split at h
      | (rw [ebind_eq_ok] at h; obtain ⟨_, _, h⟩ := h)
    all_goals (try (injection h with h; subst h))
    all_goals intro d hd
    all_goals first
      | exact ih _ (by assumption) d hd
      | (rcases List.mem_cons.mp hd with rfl | hd2
         · rfl
         · exact ih _ (by assumption) d hd2)

theorem check_stream_ir_no_ts (o k : String) (row : Row) (out : List Diag)
    (h : check_stream_ir o k row = Except.ok out) : ∀ d ∈ out, d.isTS = false := by
  simp only [check_stream_ir] at h
  repeat' first
    | split at h
    | (rw [ebind_eq_ok] at h; obtain ⟨_, _, h⟩ := h)
  all_goals (injection h with h; subst h)
  all_goals intro d hd
  all_goals first
    | exact find_pdf_type_no_ts _ _ _ d hd
    | (rcases List.mem_append.mp hd with hd2 | hd2
       · exact find_pdf_type_no_ts _ _ _ d hd2
       · simp only [List.mem_singleton] at hd2
         subst hd2
         rfl)

theorem check_pv_entry_no_ts (o k : String) (row : Row) (i : Nat) (t : String)
    (out : List Diag) (h : check_pv_entry o k row i t = Except.ok out) :
    ∀ d ∈ out, d.isTS = false := by
  unfold check_pv_entry at h
  repeat' first
    | split at h
    | (rw [ebind_eq_ok] at h; obtain ⟨_, _, h⟩ := h)
  all_goals (try (injection h with h; subst h))
  all_goals first
    | exact check_pv_string_loop_no_ts o k _ _ h
    | (intro d hd
       first
        | (simp only [List.mem_map] at hd; obtain ⟨_, _, rfl⟩ := hd; rfl)
        | simp_all [Diag.isTS])

theorem check_link_list_loop_no_ts (dom : Dom) (o k t : String) :
    ∀ (l : List PVal) (out : List Diag), check_link_list_loop dom o k t l = Except.ok out →
      ∀ d ∈ out, d.isTS = false := by
  intro l
  induction l with
  | nil => intro out h; injection h with h; subst h; simp
  | cons v rest ih =>
    intro out h
    unfold check_link_list_loop at h
    repeat' first
      | split at h
      | (rw [ebind_eq_ok] at h; obtain ⟨_, _, h⟩ := h)
    all_goals (try (injection h with h; subst h))
    all_goals intro d hd
    all_goals first
      | exact ih _ (by assumption) d hd
      | (rcases List.mem_cons.mp hd with rfl | hd2
         · rfl
         · exact ih _ (by assumption) d hd2)

theorem check_link_entry_no_ts (dom : Dom) (o k : String) (row : Row) (i : Nat) (t : String)
    (out : List Diag) (h : check_link_entry dom o k row i t = Except.ok out) :
    ∀ d ∈ out, d.isTS = false := by
  unfold check_link_entry at h
  repeat' first
    | split at h
    | (rw [ebind_eq_ok] at h; obtain ⟨_, _, h⟩ := h)
  all_goals (try (injection h with h; subst h))
  all_goals first
    | exact check_link_list_loop_no_ts dom o k t _ _ h
    | (intro d hd; simp_all [Diag.isTS])

theorem check_type_fn_entry_no_ts (o k : String) (tl : List PVal) (out : List Diag)
    (h : check_type_fn_entry o k tl = Except.ok out) : ∀ d ∈ out, d.isTS = false := by
  unfold check_type_fn_entry at h
  repeat' first
    | split at h
    | (rw [ebind_eq_ok] at h; obtain ⟨_, _, h⟩ := h)
  all_goals (injection h with h; subst h)
  all_goals intro d hd
  all_goals rcases List.mem_append.mp hd with hd2 | hd2
  all_goals revert hd2
  all_goals ((try split) <;>
    (intro hx
     simp only [List.mem_singleton, List.not_mem_nil] at hx
     try subst hx
     try rfl))

theorem check_type_entry_no_ts (dom : Dom) (o k : String) (row : Row) (i : Nat) (t : PVal)
    (out : List Diag) (h : check_type_entry dom o k row i t = Except.ok out) :
    ∀ d ∈ out, d.isTS = false := by
  unfold check_type_entry at h
  cases t with
  | str s =>
    rw [ebind_eq_ok] at h; obtain ⟨d2, h2, h⟩ := h
    rw [ebind_eq_ok] at h; obtain ⟨d3, h3, h⟩ := h
    rw [ebind_eq_ok] at h; obtain ⟨d4, h4, h⟩ := h
    injection h with h; subst h
    intro d hd
    simp only [List.mem_append] at hd
    rcases hd with ((hd | hd) | hd) | hd
    · revert hd
      split <;> intro hx
      · simp only [List.mem_singleton] at hx
        subst hx
        rfl
      · exact absurd hx (List.not_mem_nil d)
    · exact check_dv_entry_no_ts o k row i s d2 h2 d hd
    · exact check_pv_entry_no_ts o k row i s d3 h3 d hd
    · exact check_link_entry_no_ts dom o k row i s d4 h4 d hd
  | list tl => exact check_type_fn_entry_no_ts o k tl out h
  | _ => (injection h with h; subst h; simp)

theorem check_type_loop_no_ts (dom : Dom) (o k : String) (row : Row) :
    ∀ (i : Nat) (l : List PVal) (out : List Diag),
      check_type_loop dom o k row i l = Except.ok out → ∀ d ∈ out, d.isTS = false := by
  intro i l
  induction l generalizing i with
  | nil => intro out h; injection h with h; subst h; simp
  | cons t rest ih =>
    intro out h
    unfold check_type_loop at h
    rw [ebind_eq_ok] at h; obtain ⟨d1, h1, h⟩ := h
    rw [ebind_eq_ok] at h; obtain ⟨ds, hds, h⟩ := h
    injection h with h; subst h
    intro d hd
    rcases List.mem_append.mp hd with hd | hd
    · exact check_type_entry_no_ts dom o k row i t d1 h1 d hd
    · exact ih (i + 1) _ hds d hd

theorem check_key_chars_no_ts (o k : String) : ∀ d ∈ check_key_chars o k, d.isTS = false := by
  unfold check_key_chars
  split <;> simp [Diag.isTS]

theorem check_deprecated_no_ts (o k : String) (row : Row) :
    ∀ d ∈ check_deprecated o k row, d.isTS = false := by
  unfold check_deprecated
  repeat' split
  all_goals simp [Diag.isTS]

theorem check_ir_count_no_ts (o k : String) (row : Row) :
    ∀ d ∈ check_ir_count o k row, d.isTS = false := by
  unfold check_ir_count
  repeat' split
  all_goals simp [Diag.isTS]

theorem check_inheritable_no_ts (o k : String) (row : Row) :
    ∀ d ∈ check_inheritable o k row, d.isTS = false := by
  unfold check_inheritable
  repeat' split
  all_goals simp [Diag.isTS]

theorem check_dv_count_no_ts (o k : String) (row : Row) :
    ∀ d ∈ check_dv_count o k row, d.isTS = false := by
  unfold check_dv_count
  repeat' split
  all_goals simp [Diag.isTS]

theorem check_types_sorted_mem (o k : String) (row : Row) :
    Diag.typesNotSorted o k ∈ check_types_sorted o k row ↔
      ¬ is_sorted_str (reduce_typelist row.«Type» []) = true := by
  by_cases hs : is_sorted_str (reduce_typelist row.«Type» []) = true <;>
    simp [check_types_sorted, hs]

/-- C9: whenever `check_row` completes on a row, its findings contain the
`Types are not sorted` diagnostic exactly when the reduced type list
(`__reduce_typelist` through declarative-function wrappers, with a fresh
accumulator) is not alphabetically non-decreasing; a row with a sorted
reduced type list is never flagged for sortedness. -/
theorem claim9_types_sorted_iff (dom : Dom) (o k : String) (row : Row) (out : List Diag)
    (h : check_row dom o k row = Except.ok out) :
    Diag.typesNotSorted o k ∈ out ↔
      ¬ List.Chain' (fun a b : String => a ≤ b) (reduce_typelist row.«Type» []) := by
  unfold check_row at h
  rw [ebind_eq_ok] at h; obtain ⟨d3, h3, h⟩ := h
  rw [ebind_eq_ok] at h; obtain ⟨d5, h5, h⟩ := h
  rw [ebind_eq_ok] at h; obtain ⟨d7, h7, h⟩ := h
  rw [ebind_eq_ok] at h; obtain ⟨dT, hT, h⟩ := h
  injection h with h; subst h
  rw [← is_sorted_str_iff]
  constructor
  · intro hm
    simp only [List.mem_append] at hm
    rcases hm with ((((((((hm | hm) | hm) | hm) | hm) | hm) | hm) | hm) | hm) | hm
    · exact absurd rfl (isTS_ne o k (check_key_chars_no_ts o k _ hm))
    · exact (check_types_sorted_mem o k row).mp hm
    · exact absurd rfl (isTS_ne o k (check_since_version_no_ts o k row d3 h3 _ hm))
    · exact absurd rfl (isTS_ne o k (check_deprecated_no_ts o k row _ hm))
    · exact absurd rfl (isTS_ne o k (check_required_loop_no_ts o k _ d5 h5 _ hm))
    · exact absurd rfl (isTS_ne o k (check_ir_count_no_ts o k row _ hm))
    · exact absurd rfl (isTS_ne o k (check_stream_ir_no_ts o k row d7 h7 _ hm))
    · exact absurd rfl (isTS_ne o k (check_inheritable_no_ts o k row _ hm))
    · exact absurd rfl (isTS_ne o k (check_dv_count_no_ts o k row _ hm))
    · exact absurd rfl (isTS_ne o k (check_type_loop_no_ts dom o k row 0 _ dT hT _ hm))
  · intro hns
    have hmem := (check_types_sorted_mem o k row).mpr hns
    simp only [List.mem_append]
    tauto



/-! ### Further helper lemmas for the claim theorems -/

theorem appendHead_replicate (v : PVal) :
    ∀ (n k : Nat), appendHead (List.replicate (k + 1) v) n = List.replicate (k + 1 + n) v := by
  intro n
  induction n with
  | zero => intro k; simp [appendHead]
  | succ m ih =>
    intro k
    have hh : (List.replicate (k + 1) v).headD PVal.pnone = v := by
      simp [List.replicate_succ]
    simp only [appendHead, hh]
    rw [← List.replicate_succ' (k + 1) v]
    rw [ih (k + 1)]
    congr 1
    omega

theorem row_link_count_eq_zero (o : String) (r : Row) :
    row_link_count o r = 0 ↔
      ∀ ll, r.Link = Option.some ll → o ∉ reduce_linkslist_list ll [] := by
  unfold row_link_count
  cases hL : r.Link with
  | none => simp
  | some ll =>
    rw [List.length_eq_zero, List.filter_eq_nil]
    constructor
    · intro h ll2 hll2 hmem
      injection hll2 with e
      subst e
      have := h o hmem
      simp at this
    · intro h a ha
      simp only [decide_eq_true_eq]
      rintro rfl
      exact h ll rfl ha

theorem ingest_row_empty_key (validating : Bool) (obj : String) (raw : RawRow)
    (h : raw.Key = "") :
    ingest_row validating obj raw =
      Except.error "TypeError: Key name field cannot be empty!" := by
  unfold ingest_row
  rw [h]
  rfl

/-! ### The claim theorems -/

/-- C1: a row whose Link names an object absent from the Dom makes
`__validate_pdf_dom` raise `KeyError` (plain dict indexing at
lines 1032/1036 — the `Bad link` branch guarding `is None` is dead),
aborting the whole pass instead of recording a bad-link diagnostic; the
identical Dom whose link target exists validates cleanly. -/
theorem claim1_missing_link_target_raises :
    validate_pdf_dom 1 domBadLink = Except.error "KeyError: Missing" ∧
    validate_pdf_dom 1 domGoodLink = Except.ok [] :=
  ⟨rfl, rfl⟩

/-- C2 (amended): the orphan check is an in-degree test, not a
reachability computation: `check_unlinked` reports `o` exactly when `o`
is not one of the two hard-coded roots and no row anywhere in the Dom
resolves a Link to it — an object whose only incoming links come from
objects themselves unreachable from a root is still not reported. -/
theorem claim2_orphan_is_indegree_zero (dom : Dom) (o : String) :
    check_unlinked dom o = [Diag.unlinkedObject o] ↔
      (o ≠ "FileTrailer" ∧ o ≠ "XRefStream" ∧
        ∀ fobj ∈ dom, ∀ kr ∈ fobj.2, ∀ ll, kr.2.Link = Option.some ll →
          o ∉ reduce_linkslist_list ll []) := by
  have hsum :
      ((dom.map (fun fobj => (fobj.2.map (fun kr => row_link_count o kr.2)).sum)).sum = 0) ↔
        (∀ fobj ∈ dom, ∀ kr ∈ fobj.2, ∀ ll, kr.2.Link = Option.some ll →
          o ∉ reduce_linkslist_list ll []) := by
    rw [List.sum_eq_zero_iff]
    constructor
    · intro h fobj hf kr hk
      have h2 := h _ (List.mem_map_of_mem _ hf)
      rw [List.sum_eq_zero_iff] at h2
      exact (row_link_count_eq_zero o kr.2).mp (h2 _ (List.mem_map_of_mem _ hk))
    · intro h x hx
      obtain ⟨fobj, hf, rfl⟩ := List.mem_map.mp hx
      rw [List.sum_eq_zero_iff]
      intro y hy
      obtain ⟨kr, hk, rfl⟩ := List.mem_map.mp hy
      exact (row_link_count_eq_zero o kr.2).mpr (h fobj hf kr hk)
  simp only [check_unlinked]
  constructor
  · intro h
    split at h
    · rename_i hc
      exact ⟨hc.2.1, hc.2.2, hsum.mp hc.1⟩
    · exact absurd h (by simp)
  · rintro ⟨h1, h2, h3⟩
    rw [if_pos ⟨hsum.mpr h3, h1, h2⟩]

/-- C2 (counterexample): in `domCycle` the objects `A` and `B` are
unreachable from the declared roots (the spec-modelled unreachable set is
exactly them), yet the validator reports nothing: each has one incoming
link from the other. -/
theorem claim2_counterexample :
    specUnreachable domCycle = ["A", "B"] ∧
    validate_pdf_dom 3 domCycle = Except.ok [] :=
  ⟨rfl, rfl⟩

/-- C3 (amended): a child of a runtime kind outside the dispatched cases
makes the walk call `sys.exit`: `process_entry`, the per-child dispatch
the three walkers share (lines 1127-1240 and its two copies), answers an
undispatched kind with the `Unexpected type` exit for every state, so
the run terminates rather than recording a diagnostic and continuing.
On the dispatched kinds the walk does complete, revisits included: the
second occurrence of reference `(3, 0)` is cut off with an
`already visited` line. -/
theorem claim3_unexpected_kind_exits :
    (∀ (ctx : String) (dom : Dom) (f : Nat) (row : Option Row) (status p cls : String)
        (vis : List (Nat × Nat)),
      process_entry ctx dom (f + 1) row status p (PdfObj.other cls) vis =
        Except.error ("sys.exit: Unexpected type " ++ cls ++ " processing " ++ ctx ++ "!")) ∧
    process_dict [] 9 [("/Next", cycNode)] Option.none "" [] =
      Except.ok ([(3, 0)],
        ["+/Next (3, 0) <as None>", "+/Next/Next ** already visited dict (3, 0)!"]) := by
  constructor
  · intro ctx dom f row status p cls vis
    simp only [process_entry]
  · rfl

/-- C3 (counterexample): a concrete walk over a dictionary holding one
child of an undispatched runtime kind exits instead of completing with a
report. -/
theorem claim3_counterexample :
    process_dict [] 9 [("/K", PdfObj.other "pikepdf.Operator")] Option.none "" [] =
      Except.error "sys.exit: Unexpected type pikepdf.Operator processing dictionary!" :=
  rfl

/-- C4 (amended): when the schema object declares a wildcard key the
matcher takes the wildcard row even when the visited key is declared
literally (the source tests the wildcard first); the exact-key row is
consulted only when no wildcard exists. -/
theorem claim4_wildcard_wins (o : TsvObj) (k : String) (r : Row) :
    (dictHas o "*" = true → dictGet o "*" = Except.ok r →
      dict_key_row (dictHas o "*") (Option.some o) k = Except.ok (Option.some r, "=")) ∧
    (dictHas o "*" = false → dictHas o (k.drop 1) = true →
      dictGet o (k.drop 1) = Except.ok r →
      dict_key_row (dictHas o "*") (Option.some o) k = Except.ok (Option.some r, "?")) := by
  constructor
  · intro hw hg
    simp [dict_key_row, hw, hg, ebind]
  · intro hw hh hg
    simp [dict_key_row, hw, hh, hg, ebind]

/-- C4 (counterexample): `arlobjBoth` declares both the literal key `X`
and a wildcard; for the document key `/X` the matcher selects the
wildcard row (an integer type), not the distinct exact row (a number
type): the walked value renders as `5`, while the wildcard-free schema
renders it as `5.00000` through the exact row. -/
theorem claim4_counterexample :
    dict_key_row (dictHas arlobjBoth "*") (Option.some arlobjBoth) "/X" =
      Except.ok (Option.some rowWild, "=") ∧
    dictHas arlobjBoth "X" = true ∧
    rowWild ≠ rowExact ∧
    process_dict domBoth 50 [("/X", PdfObj.int 5)] (Option.some ["T"]) "" [] =
      Except.ok ([], ["=/X=5"]) ∧
    process_dict domExactOnly 50 [("/X", PdfObj.int 5)] (Option.some ["T"]) "" [] =
      Except.ok ([], ["=/X=5.00000"]) := by
  refine ⟨rfl, rfl, ?_, rfl, rfl⟩
  intro h
  simp [rowWild, rowExact, baseRow] at h

/-- C5 (amended): the static validator has no wildcard-Required
consistency check: a wildcard row with `Required == TRUE` produces no
finding at all — `check_row` returns an empty finding list for it against
every Dom and object name. -/
theorem claim5_no_wildcard_required_check (dom : Dom) (obj : String) :
    check_row dom obj "*" rowWildRequired = Except.ok [] :=
  rfl

/-- C5 (counterexample): the one-row Dom whose wildcard key has
`Required == TRUE` validates cleanly end to end — no schema-consistency
diagnostic is reported. -/
theorem claim5_counterexample :
    validate_pdf_dom 1 domWildRequired = Except.ok [] :=
  rfl

/-- C6 (amended): an empty key name raises `TypeError`, and because every
file is ingested inside the constructor's single `try`, the raised error
ends the whole file loop: the files before the bad one are kept, the
files after it are never ingested. -/
theorem claim6_empty_key_ends_run (validating : Bool) (name : String) (raw : RawRow)
    (rest : List RawRow) (fs : List TsvFile) (dom : Dom) (ds : List Diag)
    (h : raw.Key = "") :
    arlington_init_aux validating (⟨name, raw :: rest⟩ :: fs) dom ds =
      (dom, ds, Option.some "TypeError: Key name field cannot be empty!") := by
  have h1 := ingest_row_empty_key validating name raw h
  unfold arlington_init_aux ingest_file ingest_file_loop
  rw [h1]
  rfl

theorem claim6_witness :
    arlington_init_aux false [⟨"F1", [rawEmptyKey]⟩] [] [] =
      ([], [], Option.some "TypeError: Key name field cannot be empty!") :=
  claim6_empty_key_ends_run false "F1" rawEmptyKey [] [] [] [] rfl

/-- C6 (counterexample): of three schema files the middle one has an
empty key name; the run ends there: only the first file's object reaches
the Dom — the third file is not ingested, contradicting the claim that
other files still are. -/
theorem claim6_counterexample :
    (arlington_init false [⟨"F0", [rawCount]⟩, ⟨"F1", [rawEmptyKey]⟩,
      ⟨"F2", [rawCount]⟩]).1.map Prod.fst = ["F0"] ∧
    (arlington_init false [⟨"F0", [rawCount]⟩, ⟨"F1", [rawEmptyKey]⟩,
      ⟨"F2", [rawCount]⟩]).2.2 =
      Option.some "TypeError: Key name field cannot be empty!" :=
  ⟨rfl, rfl⟩

/-- C7: when Type has N ≥ 2 alternatives and IndirectReference normalizes
to a single value, ingestion broadcasts that value into N copies, so
indexing by type-alternative position is always possible; concretely, a
three-alternative raw row ingests with three copies of `False`. -/
theorem claim7_indirect_broadcast (types : List PVal) (v : PVal) (h : 2 ≤ types.length) :
    expand_single_indirect types.length [v] = List.replicate types.length v ∧
    Except.map (fun x => x.2.1.IndirectReference) (ingest_row false "Obj" rawThree) =
      Except.ok (List.replicate 3 (PVal.bool false)) := by
  constructor
  · obtain ⟨n, hn⟩ : ∃ n, types.length = n + 2 := ⟨types.length - 2, by omega⟩
    rw [hn]
    simp only [expand_single_indirect, List.length_singleton]
    rw [if_pos (by simp)]
    have h2 := appendHead_replicate v (n + 1) 0
    simp only [Nat.zero_add] at h2
    rw [show n + 2 - 1 = n + 1 from rfl,
      show ([v] : List PVal) = List.replicate 1 v from rfl, h2]
    congr 1
    omega
  · rfl

theorem claim7_witness :
    expand_single_indirect ([PVal.str "a", PVal.str "b"] : List PVal).length [PVal.bool true] =
      List.replicate ([PVal.str "a", PVal.str "b"] : List PVal).length (PVal.bool true) ∧
    Except.map (fun x => x.2.1.IndirectReference) (ingest_row false "Obj" rawThree) =
      Except.ok (List.replicate 3 (PVal.bool false)) :=
  claim7_indirect_broadcast [PVal.str "a", PVal.str "b"] (PVal.bool true) (by decide)

/-- C8: `validate_fn_bits` accepts exactly two INTEGER leaves with values
in 1..32 and the first strictly below the second; hence
`fn:BitsSet(1,33)` lexes and groups but is logged as an invalid function
call (the ShapeError finding) because 33 > 32, while `fn:BitsSet(1,32)`
passes cleanly. -/
theorem claim8_bits_shape :
    (∀ ast : List PVal, validate_fn_bits ast = Except.ok true ↔
      ∃ a b : Int,
        ast = [PVal.tok ⟨"INTEGER", TokValue.vi a⟩, PVal.tok ⟨"INTEGER", TokValue.vi b⟩] ∧
        1 ≤ a ∧ a ≤ 32 ∧ 1 ≤ b ∧ b ≤ 32 ∧ a < b) ∧
    parse_functions true "fn:BitsSet(1,33)" "PossibleValues" "o" "k" =
      Except.ok (PVal.list [PVal.list [PVal.tok ⟨"FUNC_NAME", TokValue.vs "fn:BitsSet("⟩,
        PVal.list [PVal.int 1, PVal.int 33]]],
        [Diag.invalidFunction "fn:BitsSet(" "o" "k"]) ∧
    parse_functions true "fn:BitsSet(1,32)" "PossibleValues" "o" "k" =
      Except.ok (PVal.list [PVal.list [PVal.tok ⟨"FUNC_NAME", TokValue.vs "fn:BitsSet("⟩,
        PVal.list [PVal.int 1, PVal.int 32]]], []) := by
  refine ⟨?_, rfl, rfl⟩
  intro ast
  constructor
  · intro h
    rcases ast with _ | ⟨x, _ | ⟨y, _ | ⟨z, rest⟩⟩⟩
    · exact absurd h (by simp [validate_fn_bits])
    · exact absurd h (by simp [validate_fn_bits])
    case cons.cons.cons =>
      exact absurd h (by simp [validate_fn_bits])
    rcases x with _ | _ | _ | _ | _ | tx | _
    case tok =>
      rcases y with _ | _ | _ | _ | _ | ty | _
      case tok =>
        obtain ⟨tyx, tvx⟩ := tx
        obtain ⟨tyy, tvy⟩ := ty
        rcases tvx with _ | ix2 | _ | _ <;> rcases tvy with _ | iy2 | _ | _ <;>
          simp only [validate_fn_bits, astGet, pytype, pyvalue, tvInt, ebind,
            List.length_cons, List.length_nil, List.get?] at h <;>
          repeat' split at h
        all_goals try (simp at h)
        refine ⟨ix2, iy2, ?_, ?_, ?_, ?_, ?_, ?_⟩ <;> simp_all
      all_goals simp only [validate_fn_bits, astGet, pytype, pyvalue, tvInt, ebind,
        List.length_cons, List.length_nil, List.get?] at h
      all_goals repeat' split at h
      all_goals simp at h
    all_goals simp only [validate_fn_bits, astGet, pytype, pyvalue, tvInt, ebind,
      List.length_cons, List.length_nil, List.get?] at h
    all_goals repeat' split at h
    all_goals simp at h
  · rintro ⟨a, b, rfl, h1, h2, h3, h4, h5⟩
    simp [validate_fn_bits, astGet, pytype, pyvalue, tvInt, ebind, h1, h2, h3, h4, h5]

theorem claim9_witness :
    (Diag.typesNotSorted "O" "K" ∈ [Diag.typesNotSorted "O" "K"] ↔
      ¬ List.Chain' (fun a b : String => a ≤ b) (reduce_typelist rowUnsorted.«Type» [])) :=
  claim9_types_sorted_iff [] "O" "K" rowUnsorted [Diag.typesNotSorted "O" "K"] rfl

/-- C10: `__reduce_typelist` and `__reduce_linkslist` mutate and return
one shared default accumulator: of two successive defaulted calls the
second returns the first call's result extended (the first result is a
prefix of the second), so defaulted calls are not independent; a call
with an explicit accumulator `acc` returns `acc ++` the fresh-list
result, so callers passing a fresh empty list get independent results. -/
theorem claim10_shared_default_accumulator :
    (∀ (l1 l2 : List PVal) (shared : List String),
      typelist_defaulted_calls [l1, l2] shared =
        [reduce_typelist l1 shared,
         reduce_typelist l1 shared ++ reduce_typelist l2 []]) ∧
    (∀ (l1 l2 : List PVal) (shared : List String),
      linkslist_defaulted_calls [l1, l2] shared =
        [reduce_linkslist_list l1 shared,
         reduce_linkslist_list l1 shared ++ reduce_linkslist_list l2 []]) ∧
    (∀ (l : List PVal) (acc : List String),
      reduce_typelist l acc = acc ++ reduce_typelist l []) ∧
    (∀ (l : List PVal) (acc : List String),
      reduce_linkslist_list l acc = acc ++ reduce_linkslist_list l []) := by
  refine ⟨?_, ?_, reduce_typelist_acc, reduce_linkslist_list_acc⟩
  · intro l1 l2 shared
    simp only [typelist_defaulted_calls]
    rw [reduce_typelist_acc l2 (reduce_typelist l1 shared)]
  · intro l1 l2 shared
    simp only [linkslist_defaulted_calls]
    rw [reduce_linkslist_list_acc l2 (reduce_linkslist_list l1 shared)]

end Arlington
